import Mathlib

/-!
# Verification of the Face-Makeup compositing engine

A shallow embedding of the makeup compositing engine (region paths, mask
rasterization, blend compositing, the seven effect `apply` functions and the
per-effect settings records) in Lean 4, together with theorems settling the
frozen claims about the engine.

Modelling conventions:
* JavaScript numbers are modelled as exact rationals (`ℚ`); `Math.round` is
  modelled as `jround` (round half towards `+∞`, the JS semantics for
  non-negative values).
* A landmark array is `List Pt`; a possibly-`null` landmark argument is
  `Option (List Pt)`.
* Hex color strings `"#RRGGBB"` are modelled by their parsed byte triple
  (`RGB`); parsing/formatting is a bijection between the two shapes and is not
  re-modelled.
* A canvas is a surface of rational RGB pixels (`Surface`); compositing with a
  blend mode and a source alpha follows the canvas/W3C compositing equation
  `result = (1 − α)·dst + α·B(src, dst)` per channel on `[0,1]` values.
* `ctx.fill` uses the canvas default nonzero-winding rule, modelled by
  `inPolygon` (winding number of the closed point list).
* The CSS `filter: blur(rpx)` used for mask feathering is modelled as a
  normalized box blur of integer radius `⌊r⌋` (`boxBlur`); blur of an all-zero
  buffer is all-zero and a window fully inside a constant region keeps its
  value, which is all the theorems below rely on.
* Code paths that can throw a JavaScript `TypeError` (property access on
  `undefined`) are modelled in `Except String`; guarded accesses return `.ok`.
-/

set_option maxRecDepth 100000

/-- JavaScript `Math.round` for the non-negative rationals produced by the
engine: round half away from zero, i.e. `⌊x + 1/2⌋`. -/
def jround (x : ℚ) : ℤ := ⌊x + 1/2⌋

/-- A 2-D point (a landmark or a destination-space pixel position). -/
structure Pt where
  x : ℚ
  y : ℚ
deriving DecidableEq, Repr

/-- A parsed `"#RRGGBB"` color: one byte per channel. -/
structure RGB where
  r : ℕ
  g : ℕ
  b : ℕ
deriving DecidableEq, Repr

namespace FaceMakeup

/-! ## Landmark region index (src/facemesh/landmarks.js) -/

/-- `UPPER_LIP` from landmarks.js. -/
def UPPER_LIP : List ℕ :=
  [61, 185, 40, 39, 37, 0, 267, 269, 270, 409, 291,
   308, 415, 310, 311, 312, 13, 82, 81, 80, 191, 78]

/-- `LOWER_LIP` from landmarks.js. -/
def LOWER_LIP : List ℕ :=
  [61, 146, 91, 181, 84, 17, 314, 405, 321, 375, 291,
   308, 324, 318, 402, 317, 14, 87, 178, 88, 95, 78]

/-- `LEFT_EYE` from landmarks.js. -/
def LEFT_EYE : List ℕ :=
  [33, 7, 163, 144, 145, 153, 154, 155, 133,
   173, 157, 158, 159, 160, 161, 246, 33]

/-- `RIGHT_EYE` from landmarks.js. -/
def RIGHT_EYE : List ℕ :=
  [362, 382, 381, 380, 374, 373, 390, 249, 263,
   466, 388, 387, 386, 385, 384, 398, 362]

/-- `LEFT_EYE_UPPER` from landmarks.js. -/
def LEFT_EYE_UPPER : List ℕ := [33, 246, 161, 160, 159, 158, 157, 173, 133]

/-- `LEFT_EYE_LOWER` from landmarks.js. -/
def LEFT_EYE_LOWER : List ℕ := [33, 7, 163, 144, 145, 153, 154, 155, 133]

/-- `RIGHT_EYE_UPPER` from landmarks.js. -/
def RIGHT_EYE_UPPER : List ℕ := [362, 398, 384, 385, 386, 387, 388, 466, 263]

/-- `RIGHT_EYE_LOWER` from landmarks.js. -/
def RIGHT_EYE_LOWER : List ℕ := [362, 382, 381, 380, 374, 373, 390, 249, 263]

/-- `LEFT_IRIS` from landmarks.js. -/
def LEFT_IRIS : List ℕ := [468, 469, 470, 471, 472]

/-- `RIGHT_IRIS` from landmarks.js. -/
def RIGHT_IRIS : List ℕ := [473, 474, 475, 476, 477]

/-- `LEFT_EYEBROW` from landmarks.js. -/
def LEFT_EYEBROW : List ℕ := [70, 63, 105, 66, 107, 55, 65, 52, 53, 46]

/-- `RIGHT_EYEBROW` from landmarks.js. -/
def RIGHT_EYEBROW : List ℕ := [300, 293, 334, 296, 336, 285, 295, 282, 283, 276]

/-- `LEFT_CHEEK` from landmarks.js. -/
def LEFT_CHEEK : List ℕ :=
  [117, 118, 119, 120, 121, 128, 217,
   126, 142, 36, 205, 187, 123, 116, 117]

/-- `RIGHT_CHEEK` from landmarks.js. -/
def RIGHT_CHEEK : List ℕ :=
  [346, 347, 348, 349, 350, 357, 437,
   355, 371, 266, 425, 411, 352, 345, 346]

/-- `NOSE_BRIDGE` from landmarks.js. -/
def NOSE_BRIDGE : List ℕ := [168, 6, 197, 195, 5, 4]

/-- `NOSE_TIP` from landmarks.js. -/
def NOSE_TIP : List ℕ := [1, 2, 98, 327, 326, 97]

/-- `NOSE` from landmarks.js. -/
def NOSE : List ℕ :=
  [168, 6, 197, 195, 5, 4, 1, 19,
   94, 2, 164, 0, 11, 12,
   248, 281, 275, 274,
   45, 51, 3, 196, 122, 168]

/-- `FOREHEAD` from landmarks.js. -/
def FOREHEAD : List ℕ :=
  [10, 338, 297, 332, 284, 251, 389, 264, 447, 366, 401, 435, 367, 364, 394,
   395, 369, 396, 175, 171, 140, 170, 169, 135, 138, 215, 177, 137, 227, 34,
   139, 21, 54, 103, 67, 109, 10]

/-- `JAWLINE` from landmarks.js. -/
def JAWLINE : List ℕ :=
  [10, 338, 297, 332, 284, 251, 389, 356, 454, 323, 361, 288,
   397, 365, 379, 378, 400, 377, 152, 148, 176, 149, 150, 136,
   172, 58, 132, 93, 234, 127, 162, 21, 54, 103, 67, 109, 10]

/-- `LOWER_JAW` from landmarks.js. -/
def LOWER_JAW : List ℕ :=
  [397, 365, 379, 378, 400, 377, 152, 148, 176, 149, 150, 136, 172]

/-- The `REGIONS` name → index-list map from landmarks.js. `none` models an
unknown region name (logged, not fatal). -/
def REGIONS : String → Option (List ℕ)
  | "upperLip" => some UPPER_LIP
  | "lowerLip" => some LOWER_LIP
  | "leftEye" => some LEFT_EYE
  | "rightEye" => some RIGHT_EYE
  | "leftEyeUpper" => some LEFT_EYE_UPPER
  | "leftEyeLower" => some LEFT_EYE_LOWER
  | "rightEyeUpper" => some RIGHT_EYE_UPPER
  | "rightEyeLower" => some RIGHT_EYE_LOWER
  | "leftIris" => some LEFT_IRIS
  | "rightIris" => some RIGHT_IRIS
  | "leftEyebrow" => some LEFT_EYEBROW
  | "rightEyebrow" => some RIGHT_EYEBROW
  | "leftCheek" => some LEFT_CHEEK
  | "rightCheek" => some RIGHT_CHEEK
  | "nose" => some NOSE
  | "noseBridge" => some NOSE_BRIDGE
  | "noseTip" => some NOSE_TIP
  | "forehead" => some FOREHEAD
  | "jawline" => some JAWLINE
  | "lowerJaw" => some LOWER_JAW
  | _ => none

/-- `getRegionPath(landmarks, regionName, scale)` from landmarks.js: indices
outside `landmarks.length` are silently dropped, surviving landmarks are
scaled into destination pixel coordinates. -/
def getRegionPath (landmarks : List Pt) (regionName : String) (scale : ℚ) :
    List Pt :=
  match REGIONS regionName with
  | none => []
  | some indices =>
    if landmarks.isEmpty then []
    else
      (indices.filter (fun idx => idx < landmarks.length)).filterMap
        (fun idx =>
          (landmarks.get? idx).map (fun pt => ⟨pt.x * scale, pt.y * scale⟩))

/-- Exception-aware rendering of `getRegionPath`: every `landmarks[idx].x`
property access is modelled through `Option`; an access on a missing entry
would be a `TypeError`. Because the source filters `idx < landmarks.length`
before mapping, this always returns `.ok`. -/
def getRegionPathE (landmarks : List Pt) (regionName : String) (scale : ℚ) :
    Except String (List Pt) :=
  match REGIONS regionName with
  | none => .ok []
  | some indices =>
    if landmarks.isEmpty then .ok []
    else
      (indices.filter (fun idx => idx < landmarks.length)).mapM
        (fun idx =>
          match landmarks.get? idx with
          | some pt => .ok (⟨pt.x * scale, pt.y * scale⟩ : Pt)
          | none => .error "TypeError")

end FaceMakeup

namespace FaceMakeup

/-! ## Color intensity adjustment (src/effects/lipstick.js, adjustColorIntensity) -/

/-- The `hue2rgb` helper from `adjustColorIntensity`: sequentially wraps `t`
into range, then evaluates the piecewise-linear hue ramp. -/
def hue2rgb (p q t0 : ℚ) : ℚ :=
  let t1 := if t0 < 0 then t0 + 1 else t0
  let t := if t1 > 1 then t1 - 1 else t1
  if t < 1/6 then p + (q - p) * 6 * t
  else if t < 1/2 then q
  else if t < 2/3 then p + (q - p) * (2/3 - t) * 6
  else p

/-- `Math.max(r, g, b) / 255` on the parsed channels. -/
def rgbMax (c : RGB) : ℚ := max (max (c.r : ℚ) (c.g : ℚ)) (c.b : ℚ) / 255

/-- `Math.min(r, g, b) / 255` on the parsed channels. -/
def rgbMin (c : RGB) : ℚ := min (min (c.r : ℚ) (c.g : ℚ)) (c.b : ℚ) / 255

/-- The HSL lightness `l = (max + min) / 2` computed by `adjustColorIntensity`. -/
def rgbLight (c : RGB) : ℚ := (rgbMax c + rgbMin c) / 2

/-- The HSL saturation computed by `adjustColorIntensity` (`0` on grey). -/
def rgbSat (c : RGB) : ℚ :=
  if rgbMax c = rgbMin c then 0
  else
    let d := rgbMax c - rgbMin c
    if rgbLight c > 1/2 then d / (2 - rgbMax c - rgbMin c)
    else d / (rgbMax c + rgbMin c)

/-- The HSL hue computed by `adjustColorIntensity`; the `switch (max)` of the
source matches `rNorm` before `gNorm` before `bNorm`. -/
def rgbHue (c : RGB) : ℚ :=
  if rgbMax c = rgbMin c then 0
  else
    let d := rgbMax c - rgbMin c
    let rN : ℚ := (c.r : ℚ) / 255
    let gN : ℚ := (c.g : ℚ) / 255
    let bN : ℚ := (c.b : ℚ) / 255
    if rgbMax c = rN then ((gN - bN) / d + (if gN < bN then 6 else 0)) / 6
    else if rgbMax c = gN then ((bN - rN) / d + 2) / 6
    else ((rN - gN) / d + 4) / 6

/-- `adjustColorIntensity(hexColor, intensity)` from lipstick.js on the parsed
byte triple: hex → HSL, saturation scaled by `intensity` (capped at 1),
HSL → hex with `Math.round(c * 255)` per channel. -/
def adjustColorIntensity (c : RGB) (intensity : ℚ) : RGB :=
  let l := rgbLight c
  let newS := min 1 (rgbSat c * intensity)
  if newS = 0 then
    let v := (jround (l * 255)).toNat
    ⟨v, v, v⟩
  else
    let q := if l < 1/2 then l * (1 + newS) else l + newS - l * newS
    let p := 2 * l - q
    let h := rgbHue c
    ⟨(jround (hue2rgb p q (h + 1/3) * 255)).toNat,
     (jround (hue2rgb p q h * 255)).toNat,
     (jround (hue2rgb p q (h - 1/3) * 255)).toNat⟩

/-! ## Geometry: winding-rule polygon fill, segment distance -/

/-- Cross product of `b − a` and `p − a`; the sign tells on which side of the
directed edge `a → b` the point `p` lies. -/
def cross2 (a b p : Pt) : ℚ := (b.x - a.x) * (p.y - a.y) - (b.y - a.y) * (p.x - a.x)

/-- Winding-number contribution of one directed edge for a horizontal ray from
`p` (the canvas nonzero fill rule). -/
def windEdge (p a b : Pt) : ℤ :=
  if a.y ≤ p.y then
    (if p.y < b.y then (if 0 < cross2 a b p then 1 else 0) else 0)
  else
    (if b.y ≤ p.y then (if cross2 a b p < 0 then -1 else 0) else 0)

/-- The consecutive edges of the closed polygon through `pts` (last point joined
back to the first, as `createPath2D(points, true)` does via `closePath`). -/
def closedEdges (pts : List Pt) : List (Pt × Pt) :=
  match pts with
  | [] => []
  | p0 :: _ => pts.zip (pts.tail ++ [p0])

/-- Nonzero-winding point-in-polygon test: the fill rule used by `ctx.fill`. -/
def inPolygon (pts : List Pt) (p : Pt) : Bool :=
  ((closedEdges pts).foldl (fun w e => w + windEdge p e.1 e.2) 0) ≠ 0

/-- The consecutive segments of the open polyline through `pts`. -/
def polylineSegs (pts : List Pt) : List (Pt × Pt) := pts.zip pts.tail

/-- Squared distance between two points. -/
def distSq (p q : Pt) : ℚ := (p.x - q.x) ^ 2 + (p.y - q.y) ^ 2

/-- Squared distance from `p` to the segment `a–b`, computed with exact
rational arithmetic (clamping the projection parameter to `[0,1]`). -/
def segDistSq (p a b : Pt) : ℚ :=
  let len2 := distSq a b
  if len2 = 0 then distSq p a
  else
    let t := ((p.x - a.x) * (b.x - a.x) + (p.y - a.y) * (b.y - a.y)) / len2
    let t := max 0 (min 1 t)
    distSq p ⟨a.x + t * (b.x - a.x), a.y + t * (b.y - a.y)⟩

/-- Whether `p` lies within distance `w/2` of the open polyline through `pts`
(the coverage of a stroked polyline of width `w`, round caps). -/
def onStroke (pts : List Pt) (w : ℚ) (p : Pt) : Bool :=
  (polylineSegs pts).any (fun e => segDistSq p e.1 e.2 ≤ (w / 2) ^ 2)

end FaceMakeup

namespace FaceMakeup

/-! ## Mask generation (src/render/masks.js) -/

/-- A single-channel coverage buffer: value in `[0, 255]` at each pixel. -/
def Mask : Type := Pt → ℚ

/-- The all-zero coverage buffer (a freshly created offscreen canvas). -/
def zeroMask : Mask := fun _ => 0

/-- Normalized box blur of integer radius `r` over a single-channel buffer,
sampling the `(2r+1)²` window centred on the pixel (the model of the CSS
`filter: blur(...)` used for feathering; outside samples are taken from the
buffer itself, which is transparent outside any drawn shape). -/
def boxBlur (r : ℕ) (m : Mask) : Mask := fun p =>
  if r = 0 then m p
  else
    let win : List ℚ := (List.range (2 * r + 1)).map (fun (i : ℕ) => (i : ℚ) - (r : ℚ))
    (win.foldl
      (fun acc dy =>
        win.foldl (fun acc2 dx => acc2 + m ⟨p.x + dx, p.y + dy⟩) acc) 0)
      / ((2 * r + 1) ^ 2 : ℚ)

/-- The hard rasterization `ctx.fill(createPath2D(points, true))` of a region
path: full coverage inside the closed polygon under the nonzero winding rule. -/
def fillRaster (pts : List Pt) : Mask := fun p =>
  if inPolygon pts p then 255 else 0

/-- `generateRegionMask` from masks.js: fewer than 3 path points yields the
blank canvas; otherwise the closed polygon is filled white and feathered with
`blur(featherRadius px)` when `featherRadius > 0`. -/
def generateRegionMask (landmarks : List Pt) (regionName : String)
    (scale featherRadius : ℚ) : Mask :=
  let points := getRegionPath landmarks regionName scale
  if points.length < 3 then zeroMask
  else if featherRadius > 0 then boxBlur ⌊featherRadius⌋.toNat (fillRaster points)
  else fillRaster points

/-- `generateCombinedMask` from masks.js: all regions with at least 3 surviving
points are filled onto one canvas (union of coverage), then one shared blur
pass feathers the union. -/
def generateCombinedMask (landmarks : List Pt) (regionNames : List String)
    (scale featherRadius : ℚ) : Mask :=
  let union : Mask := fun p =>
    if regionNames.any (fun name =>
        let points := getRegionPath landmarks name scale
        3 ≤ points.length && inPolygon points p) then 255 else 0
  if featherRadius > 0 then boxBlur ⌊featherRadius⌋.toNat union else union

/-! ## Blend modes and compositing -/

/-- The blend-mode identifiers accepted by the engine (canvas
`globalCompositeOperation` values used by the effects). -/
inductive BlendMode where
  | multiply | screen | overlay | softLight | hardLight | color | sourceOver
deriving DecidableEq, Repr

/-- One RGB pixel with rational channels in `[0, 1]`. -/
structure Px where
  r : ℚ
  g : ℚ
  b : ℚ
deriving DecidableEq, Repr

/-- Luminance weight used by the W3C non-separable `color` blend mode. -/
def lum (c : Px) : ℚ := 3/10 * c.r + 59/100 * c.g + 11/100 * c.b

/-- `ClipColor` from the W3C compositing spec (used by the `color` mode). -/
def clipColor (c : Px) : Px :=
  let l := lum c
  let n := min (min c.r c.g) c.b
  let x := max (max c.r c.g) c.b
  let c1 := if n < 0 then
      ⟨l + (c.r - l) * l / (l - n), l + (c.g - l) * l / (l - n),
       l + (c.b - l) * l / (l - n)⟩ else c
  if 1 < x then
      ⟨l + (c1.r - l) * (1 - l) / (x - l), l + (c1.g - l) * (1 - l) / (x - l),
       l + (c1.b - l) * (1 - l) / (x - l)⟩ else c1

/-- `SetLum` from the W3C compositing spec. -/
def setLum (c : Px) (l : ℚ) : Px :=
  let d := l - lum c
  clipColor ⟨c.r + d, c.g + d, c.b + d⟩

/-- The `D(Cb)` helper of the W3C `soft-light` blend: the cubic branch for
`Cb ≤ 1/4` and, for larger values, the secant line of `√Cb` through `(1/4, 1/2)`
and `(1, 1)` (a rational stand-in for the irrational square root; no theorem
below depends on soft-light values). -/
def softLightD (d : ℚ) : ℚ :=
  if d ≤ 1/4 then ((16 * d - 12) * d + 4) * d else (1 + 2 * d) / 3

/-- Separable per-channel blend formulas (W3C compositing and blending). -/
def blendChannel (m : BlendMode) (s d : ℚ) : ℚ :=
  match m with
  | .multiply => s * d
  | .screen => 1 - (1 - s) * (1 - d)
  | .overlay => if d ≤ 1/2 then 2 * s * d else 1 - 2 * (1 - s) * (1 - d)
  | .hardLight => if s ≤ 1/2 then 2 * s * d else 1 - 2 * (1 - s) * (1 - d)
  | .softLight =>
      if s ≤ 1/2 then d - (1 - 2 * s) * d * (1 - d)
      else d + (2 * s - 1) * (softLightD d - d)
  | _ => s

/-- Blend function `B(src, dst)` for a mode; `color` takes hue/saturation from
the source and luminance from the destination, the rest act per channel. -/
def blendPx (m : BlendMode) (s d : Px) : Px :=
  match m with
  | .color => setLum s (lum d)
  | _ => ⟨blendChannel m s.r d.r, blendChannel m s.g d.g, blendChannel m s.b d.b⟩

/-- The canvas compositing equation for an opaque destination: the source is
drawn with effective alpha `α`, giving `(1 − α)·dst + α·B(src, dst)` per
channel. -/
def compositePx (m : BlendMode) (d s : Px) (α : ℚ) : Px :=
  let bl := blendPx m s d
  ⟨(1 - α) * d.r + α * bl.r, (1 - α) * d.g + α * bl.g, (1 - α) * d.b + α * bl.b⟩

/-- A destination surface: a raster of opaque RGB pixels. -/
structure Surface where
  width : ℕ
  height : ℕ
  pix : Pt → Px

/-- Normalize a byte-triple color to `[0,1]` channels. -/
def rgbToPx (c : RGB) : Px := ⟨(c.r : ℚ) / 255, (c.g : ℚ) / 255, (c.b : ℚ) / 255⟩

/-- Compositing a flat color through a coverage mask onto a surface with a
blend mode and a global alpha: the model of "fill color canvas,
`destination-in` the mask, draw with `globalAlpha`/`globalCompositeOperation`"
(`applyColorWithMask` in masks.js and the tail of `applyLipstick` /
`applyBlush`). The effective per-pixel alpha is `globalAlpha · mask/255`. -/
def compositeMasked (surf : Surface) (mask : Mask) (color : RGB)
    (m : BlendMode) (globalAlpha : ℚ) : Surface :=
  { surf with
    pix := fun p => compositePx m (surf.pix p) (rgbToPx color) (globalAlpha * mask p / 255) }

end FaceMakeup

namespace FaceMakeup

/-! ## Effect settings records, defaults, merge and setters -/

/-- Clamp helper used by every numeric setter: `Math.max(lo, Math.min(hi, v))`. -/
def clampQ (lo hi v : ℚ) : ℚ := max lo (min hi v)

/-- Lipstick settings (`DEFAULT_LIPSTICK` shape, lipstick.js). -/
structure LipstickSettings where
  enabled : Bool
  color : RGB
  opacity : ℚ
  intensity : ℚ
  blendMode : BlendMode
  featherRadius : ℚ
deriving DecidableEq, Repr

/-- `DEFAULT_LIPSTICK` from lipstick.js. -/
def DEFAULT_LIPSTICK : LipstickSettings :=
  ⟨true, ⟨0xCC, 0x33, 0x66⟩, 1/2, 1, .multiply, 2⟩

/-- A `settings` argument / `update(newSettings)` payload for lipstick: only
the fields present are merged (`{ ...DEFAULT_LIPSTICK, ...settings }` /
`Object.assign`). -/
structure LipstickPatch where
  enabled : Option Bool := none
  color : Option RGB := none
  opacity : Option ℚ := none
  intensity : Option ℚ := none
  blendMode : Option BlendMode := none
  featherRadius : Option ℚ := none
deriving DecidableEq, Repr

/-- Spread-merge of a patch over lipstick settings (no clamping, as in the
source `Object.assign`). -/
def LipstickSettings.merge (s : LipstickSettings) (p : LipstickPatch) :
    LipstickSettings :=
  ⟨p.enabled.getD s.enabled, p.color.getD s.color, p.opacity.getD s.opacity,
   p.intensity.getD s.intensity, p.blendMode.getD s.blendMode,
   p.featherRadius.getD s.featherRadius⟩

/-- `LipstickEffect.setOpacity`: clamps to `[0,1]`. -/
def LipstickSettings.setOpacity (s : LipstickSettings) (v : ℚ) : LipstickSettings :=
  { s with opacity := clampQ 0 1 v }

/-- `LipstickEffect.setIntensity`: clamps to `[0,1]`. -/
def LipstickSettings.setIntensity (s : LipstickSettings) (v : ℚ) : LipstickSettings :=
  { s with intensity := clampQ 0 1 v }

/-- Eyeliner settings (`DEFAULT_EYELINER` shape, eyeliner.js). -/
structure EyelinerSettings where
  enabled : Bool
  color : RGB
  thickness : ℚ
  opacity : ℚ
  style : String
  smudge : ℚ
deriving DecidableEq, Repr

/-- `DEFAULT_EYELINER` from eyeliner.js. -/
def DEFAULT_EYELINER : EyelinerSettings :=
  ⟨true, ⟨0x1a, 0x1a, 0x1a⟩, 2, 17/20, "classic", 1/2⟩

/-- A `settings` / `update` payload for eyeliner. -/
structure EyelinerPatch where
  enabled : Option Bool := none
  color : Option RGB := none
  thickness : Option ℚ := none
  opacity : Option ℚ := none
  style : Option String := none
  smudge : Option ℚ := none
deriving DecidableEq, Repr

/-- Spread-merge of a patch over eyeliner settings. -/
def EyelinerSettings.merge (s : EyelinerSettings) (p : EyelinerPatch) :
    EyelinerSettings :=
  ⟨p.enabled.getD s.enabled, p.color.getD s.color, p.thickness.getD s.thickness,
   p.opacity.getD s.opacity, p.style.getD s.style, p.smudge.getD s.smudge⟩

/-- `EyelinerEffect.setThickness`: clamps to `[1,10]`. -/
def EyelinerSettings.setThickness (s : EyelinerSettings) (v : ℚ) : EyelinerSettings :=
  { s with thickness := clampQ 1 10 v }

/-- `EyelinerEffect.setOpacity`: clamps to `[0,1]`. -/
def EyelinerSettings.setOpacity (s : EyelinerSettings) (v : ℚ) : EyelinerSettings :=
  { s with opacity := clampQ 0 1 v }

/-- Eyeshadow settings (`DEFAULT_EYESHADOW` shape, eyeshadow.js). -/
structure EyeshadowSettings where
  enabled : Bool
  color : RGB
  opacity : ℚ
  spread : ℚ
  intensity : ℚ
  blendMode : BlendMode
  shimmer : Bool
deriving DecidableEq, Repr

/-- `DEFAULT_EYESHADOW` from eyeshadow.js. -/
def DEFAULT_EYESHADOW : EyeshadowSettings :=
  ⟨false, ⟨0x8B, 0x4B, 0x8B⟩, 7/20, 1, 4/5, .multiply, false⟩

/-- A `settings` / `update` payload for eyeshadow. -/
structure EyeshadowPatch where
  enabled : Option Bool := none
  color : Option RGB := none
  opacity : Option ℚ := none
  spread : Option ℚ := none
  intensity : Option ℚ := none
  blendMode : Option BlendMode := none
  shimmer : Option Bool := none
deriving DecidableEq, Repr

/-- Spread-merge of a patch over eyeshadow settings. -/
def EyeshadowSettings.merge (s : EyeshadowSettings) (p : EyeshadowPatch) :
    EyeshadowSettings :=
  ⟨p.enabled.getD s.enabled, p.color.getD s.color, p.opacity.getD s.opacity,
   p.spread.getD s.spread, p.intensity.getD s.intensity,
   p.blendMode.getD s.blendMode, p.shimmer.getD s.shimmer⟩

/-- `EyeshadowEffect.setOpacity`: clamps to `[0,1]`. -/
def EyeshadowSettings.setOpacity (s : EyeshadowSettings) (v : ℚ) : EyeshadowSettings :=
  { s with opacity := clampQ 0 1 v }

/-- `EyeshadowEffect.setSpread`: clamps to `[0.3, 2]`. -/
def EyeshadowSettings.setSpread (s : EyeshadowSettings) (v : ℚ) : EyeshadowSettings :=
  { s with spread := clampQ (3/10) 2 v }

/-- `EyeshadowEffect.setIntensity`: clamps to `[0,1]`. -/
def EyeshadowSettings.setIntensity (s : EyeshadowSettings) (v : ℚ) : EyeshadowSettings :=
  { s with intensity := clampQ 0 1 v }

/-- Blush settings (`DEFAULT_BLUSH` shape, blush module). -/
structure BlushSettings where
  enabled : Bool
  color : RGB
  opacity : ℚ
  intensity : ℚ
  featherRadius : ℚ
  blendMode : BlendMode
deriving DecidableEq, Repr

/-- `DEFAULT_BLUSH` from the blush module. -/
def DEFAULT_BLUSH : BlushSettings :=
  ⟨false, ⟨0xE8, 0xA0, 0xA0⟩, 1/4, 4/5, 15, .multiply⟩

/-- A `settings` / `update` payload for blush. -/
structure BlushPatch where
  enabled : Option Bool := none
  color : Option RGB := none
  opacity : Option ℚ := none
  intensity : Option ℚ := none
  featherRadius : Option ℚ := none
  blendMode : Option BlendMode := none
deriving DecidableEq, Repr

/-- Spread-merge of a patch over blush settings. -/
def BlushSettings.merge (s : BlushSettings) (p : BlushPatch) : BlushSettings :=
  ⟨p.enabled.getD s.enabled, p.color.getD s.color, p.opacity.getD s.opacity,
   p.intensity.getD s.intensity, p.featherRadius.getD s.featherRadius,
   p.blendMode.getD s.blendMode⟩

/-- `BlushEffect.setOpacity`: clamps to `[0,1]`. -/
def BlushSettings.setOpacity (s : BlushSettings) (v : ℚ) : BlushSettings :=
  { s with opacity := clampQ 0 1 v }

/-- Contour settings (`DEFAULT_CONTOUR` shape, second contour module of
presets.js, the cheek-hollow/temple/nose-side implementation). -/
structure ContourSettings where
  enabled : Bool
  color : RGB
  opacity : ℚ
  intensity : ℚ
  featherRadius : ℚ
  blendMode : BlendMode
deriving DecidableEq, Repr

/-- `DEFAULT_CONTOUR` from the cheek-hollow contour module. -/
def DEFAULT_CONTOUR : ContourSettings :=
  ⟨false, ⟨0x8B, 0x6B, 0x5B⟩, 1/4, 4/5, 12, .multiply⟩

/-- A `settings` / `update` payload for contour. -/
structure ContourPatch where
  enabled : Option Bool := none
  color : Option RGB := none
  opacity : Option ℚ := none
  intensity : Option ℚ := none
  featherRadius : Option ℚ := none
  blendMode : Option BlendMode := none
deriving DecidableEq, Repr

/-- Spread-merge of a patch over contour settings. -/
def ContourSettings.merge (s : ContourSettings) (p : ContourPatch) : ContourSettings :=
  ⟨p.enabled.getD s.enabled, p.color.getD s.color, p.opacity.getD s.opacity,
   p.intensity.getD s.intensity, p.featherRadius.getD s.featherRadius,
   p.blendMode.getD s.blendMode⟩

/-- `ContourEffect.setOpacity`: clamps to `[0,1]`. -/
def ContourSettings.setOpacity (s : ContourSettings) (v : ℚ) : ContourSettings :=
  { s with opacity := clampQ 0 1 v }

/-- Highlight settings (`DEFAULT_HIGHLIGHT` shape, highlight.js). -/
structure HighlightSettings where
  enabled : Bool
  color : RGB
  opacity : ℚ
  intensity : ℚ
  featherRadius : ℚ
  shimmer : Bool
deriving DecidableEq, Repr

/-- `DEFAULT_HIGHLIGHT` from highlight.js. -/
def DEFAULT_HIGHLIGHT : HighlightSettings :=
  ⟨false, ⟨0xFF, 0xFF, 0xFF⟩, 3/20, 3/5, 8, true⟩

/-- A `settings` / `update` payload for highlight. -/
structure HighlightPatch where
  enabled : Option Bool := none
  color : Option RGB := none
  opacity : Option ℚ := none
  intensity : Option ℚ := none
  featherRadius : Option ℚ := none
  shimmer : Option Bool := none
deriving DecidableEq, Repr

/-- Spread-merge of a patch over highlight settings. -/
def HighlightSettings.merge (s : HighlightSettings) (p : HighlightPatch) :
    HighlightSettings :=
  ⟨p.enabled.getD s.enabled, p.color.getD s.color, p.opacity.getD s.opacity,
   p.intensity.getD s.intensity, p.featherRadius.getD s.featherRadius,
   p.shimmer.getD s.shimmer⟩

/-- `HighlightEffect.setOpacity`: clamps to `[0,1]`. -/
def HighlightSettings.setOpacity (s : HighlightSettings) (v : ℚ) : HighlightSettings :=
  { s with opacity := clampQ 0 1 v }

/-- Skin-smoothing settings (`DEFAULT_SKIN_SMOOTHING` shape, presets.js). -/
structure SkinSmoothingSettings where
  enabled : Bool
  strength : ℚ
  preserveTexture : ℚ
  blurRadius : ℚ
deriving DecidableEq, Repr

/-- `DEFAULT_SKIN_SMOOTHING` from the skin-smoothing module. -/
def DEFAULT_SKIN_SMOOTHING : SkinSmoothingSettings := ⟨false, 3/10, 1/2, 8⟩

/-- A `settings` / `update` payload for skin smoothing. -/
structure SkinSmoothingPatch where
  enabled : Option Bool := none
  strength : Option ℚ := none
  preserveTexture : Option ℚ := none
  blurRadius : Option ℚ := none
deriving DecidableEq, Repr

/-- Spread-merge of a patch over skin-smoothing settings. -/
def SkinSmoothingSettings.merge (s : SkinSmoothingSettings)
    (p : SkinSmoothingPatch) : SkinSmoothingSettings :=
  ⟨p.enabled.getD s.enabled, p.strength.getD s.strength,
   p.preserveTexture.getD s.preserveTexture, p.blurRadius.getD s.blurRadius⟩

/-- `SkinSmoothingEffect.setStrength`: clamps to `[0,1]`. -/
def SkinSmoothingSettings.setStrength (s : SkinSmoothingSettings) (v : ℚ) :
    SkinSmoothingSettings :=
  { s with strength := clampQ 0 1 v }

/-- `SkinSmoothingEffect.setPreserveTexture`: clamps to `[0,1]`. -/
def SkinSmoothingSettings.setPreserveTexture (s : SkinSmoothingSettings) (v : ℚ) :
    SkinSmoothingSettings :=
  { s with preserveTexture := clampQ 0 1 v }

end FaceMakeup

namespace FaceMakeup

/-! ## Gradients and small helpers -/

/-- `Math.min(...list)` for a nonempty list (`0` on empty, never hit). -/
def qMin : List ℚ → ℚ
  | [] => 0
  | x :: xs => xs.foldl min x

/-- `Math.max(...list)` for a nonempty list (`0` on empty, never hit). -/
def qMax : List ℚ → ℚ
  | [] => 0
  | x :: xs => xs.foldl max x

/-- Evaluate a canvas gradient's alpha ramp, given its `(offset, alpha)` stops
in increasing offset order: clamped before the first and after the last stop,
linear in between. -/
def gradEval : List (ℚ × ℚ) → ℚ → ℚ
  | [], _ => 0
  | [(_, v)], _ => v
  | (o1, v1) :: (o2, v2) :: rest, t =>
    if t ≤ o1 then v1
    else if t ≤ o2 then
      if o2 - o1 = 0 then v2 else v1 + (v2 - v1) * (t - o1) / (o2 - o1)
    else gradEval ((o2, v2) :: rest) t

/-- Radial-gradient alpha as a function of the squared offset
`u = dist² / radius²`: the stop offsets are squared and the ramp is linear in
`u` between them. This avoids the irrational square root and agrees with the
true radial ramp exactly at every stop (in particular at the centre `u = 0`
and the outer edge `u = 1`, the only places any theorem below samples it). -/
def gradEvalSq (stops : List (ℚ × ℚ)) (u : ℚ) : ℚ :=
  gradEval (stops.map (fun s => (s.1 ^ 2, s.2))) u

/-- Bounding-box data of a point list: `(minX, maxX, minY, maxY)`. -/
def bbox (pts : List Pt) : ℚ × ℚ × ℚ × ℚ :=
  (qMin (pts.map (·.x)), qMax (pts.map (·.x)),
   qMin (pts.map (·.y)), qMax (pts.map (·.y)))

/-- Bounding-box centre `((minX+maxX)/2, (minY+maxY)/2)`. -/
def bboxCenter (pts : List Pt) : Pt :=
  let (minX, maxX, minY, maxY) := bbox pts
  ⟨(minX + maxX) / 2, (minY + maxY) / 2⟩

/-! ## Lipstick and blush (src/effects/lipstick.js, blush module) -/

/-- `applyLipstick(ctx, landmarks, width, height, scale, settings)`: merge over
defaults, guard, combined upper+lower lip mask, saturation pre-adjustment of
the color by `intensity`, then composite at `globalAlpha = opacity` with the
configured blend mode. -/
def applyLipstick (settings : LipstickPatch) (landmarks : Option (List Pt))
    (scale : ℚ) (surf : Surface) : Surface :=
  let config := DEFAULT_LIPSTICK.merge settings
  if ¬config.enabled then surf
  else
    match landmarks with
    | none => surf
    | some lms =>
      if lms.isEmpty then surf
      else
        let mask := generateCombinedMask lms ["upperLip", "lowerLip"] scale
          config.featherRadius
        let adjustedColor := adjustColorIntensity config.color config.intensity
        compositeMasked surf mask adjustedColor config.blendMode config.opacity

/-- `applyBlush(ctx, landmarks, width, height, scale, settings)`: merge over
defaults, guard, combined left+right cheek mask, then composite the raw color
at `globalAlpha = opacity * intensity` with the configured blend mode. -/
def applyBlush (settings : BlushPatch) (landmarks : Option (List Pt))
    (scale : ℚ) (surf : Surface) : Surface :=
  let config := DEFAULT_BLUSH.merge settings
  if ¬config.enabled then surf
  else
    match landmarks with
    | none => surf
    | some lms =>
      if lms.isEmpty then surf
      else
        let mask := generateCombinedMask lms ["leftCheek", "rightCheek"] scale
          config.featherRadius
        compositeMasked surf mask config.color config.blendMode
          (config.opacity * config.intensity)

/-! ## Eyeshadow (src/effects/eyeshadow.js) -/

/-- Stand-in for `Math.sin(t·π)` on `[0,1]`: the parabola `4t(1−t)`, which like
the sine vanishes at both corners and peaks at the middle (the dome shape; no
theorem below depends on intermediate values). -/
def sinPi (t : ℚ) : ℚ := 4 * t * (1 - t)

/-- The alpha stops of the eyeshadow linear gradient: opaque base color at the
lid, `0x88` alpha midway, transparent at the top. -/
def eyeshadowStops : List (ℚ × ℚ) := [(0, 1), (1/2, 136/255), (1, 0)]

/-- The alpha stops of the eyeshadow shimmer radial gradient
(`rgba(255,255,255,0.4)` at the centre, transparent at the edge). -/
def shimmerStops : List (ℚ × ℚ) := [(0, 2/5), (1, 0)]

/-- `drawEyeshadow` (one eye): dome-shaped shadow polygon above the upper lid,
filled with a vertical linear gradient at `opacity · intensity`, optional
shimmer pass at `opacity · 0.3` with `overlay`. Skips the eye when either path
resolves to fewer than 3 points. -/
def drawEyeshadow (lms : List Pt) (eyeRegion browRegion : String) (scale : ℚ)
    (config : EyeshadowSettings) (surf : Surface) : Surface :=
  let eyePoints := getRegionPath lms eyeRegion scale
  let browPoints := getRegionPath lms browRegion scale
  if eyePoints.length < 3 ∨ browPoints.length < 3 then surf
  else
    let eyeMinX := qMin (eyePoints.map (·.x))
    let eyeMaxX := qMax (eyePoints.map (·.x))
    let eyeMinY := qMin (eyePoints.map (·.y))
    let eyeCenterX := (eyeMinX + eyeMaxX) / 2
    let browCenterY := (browPoints.map (·.y)).sum / (browPoints.length : ℚ)
    let shadowHeight := (eyeMinY - browCenterY) * config.spread
    let n := eyePoints.length
    let upperCurve := (List.range n).filterMap (fun i =>
      (eyePoints.get? i).map (fun pt =>
        let t := (i : ℚ) / ((n : ℚ) - 1)
        (⟨pt.x, pt.y - sinPi t * shadowHeight⟩ : Pt)))
    let shadowPoly := (eyePoints.take 1) ++ upperCurve ++ eyePoints.reverse
    let gradAlpha : Pt → ℚ := fun p =>
      if shadowHeight = 0 then 1
      else gradEval eyeshadowStops ((eyeMinY - p.y) / shadowHeight)
    let afterFill : Surface :=
      { surf with pix := (fun p =>
          if inPolygon shadowPoly p then
            (compositePx config.blendMode (surf.pix p) (rgbToPx config.color)
              (config.opacity * config.intensity * gradAlpha p))
          else surf.pix p) }
    if config.shimmer then
      let shimmerCenter : Pt := ⟨eyeCenterX, eyeMinY - shadowHeight * 3/10⟩
      let shimmerRadius := (eyeMaxX - eyeMinX) * 1/2
      { afterFill with pix := (fun p =>
          if inPolygon shadowPoly p then
            (compositePx .overlay (afterFill.pix p) ⟨1, 1, 1⟩
              (config.opacity * 3/10 *
                (if shimmerRadius = 0 then 0
                 else gradEvalSq shimmerStops (distSq p shimmerCenter / shimmerRadius ^ 2))))
          else afterFill.pix p) }
    else afterFill

/-- `applyEyeshadow(ctx, landmarks, width, height, scale, settings)`. -/
def applyEyeshadow (settings : EyeshadowPatch) (landmarks : Option (List Pt))
    (scale : ℚ) (surf : Surface) : Surface :=
  let config := DEFAULT_EYESHADOW.merge settings
  if ¬config.enabled then surf
  else
    match landmarks with
    | none => surf
    | some lms =>
      if lms.isEmpty then surf
      else
        let s1 := drawEyeshadow lms "leftEyeUpper" "leftEyebrow" scale config surf
        drawEyeshadow lms "rightEyeUpper" "rightEyebrow" scale config s1

end FaceMakeup

namespace FaceMakeup

/-! ## Eyeliner (the face-centre-aware eyeliner module) -/

/-- The geometry of one drawn eyeliner stroke: the control points in draw
order (inner corner first), the stroke's start (`moveTo`) and finish (the last
`lineTo` before any wing), the optional wing tip, and the styled thickness.
The quadratic midpoint smoothing of the source follows the same control
points; the stroke's pixel coverage is modelled on the control polyline. -/
structure Stroke where
  pts : List Pt
  start : Pt
  finish : Pt
  wing : Option Pt
deriving DecidableEq, Repr

/-- The per-style thickness multiplier of `drawEyelinerLine`
(`thin` ≈ 0.6×, `thick` ≈ 1.8×, others 1×). -/
def styledThickness (style : String) (thickness : ℚ) : ℚ :=
  let t1 := if style = "thin" then thickness * (3/5) else thickness
  if style = "thick" then t1 * (9/5) else t1

/-- `drawEyelinerLine(ctx, landmarks, eyeRegion, scale, config, faceCenter)`:
skip on fewer than 3 path points; otherwise pick as outer corner whichever
endpoint has the larger `|x − faceCenter.x|` (ties go to the last point), draw
from the inner corner through the points (reversed when needed) to the outer
corner, and for `style = 'winged'` extend a tip laterally away from the face
centre and upward. -/
def drawEyelinerLine (lms : List Pt) (eyeRegion : String) (scale : ℚ)
    (config : EyelinerSettings) (faceCenter : Pt) : Option Stroke :=
  let points := getRegionPath lms eyeRegion scale
  if points.length < 3 then none
  else
    let thickness := styledThickness config.style config.thickness
    let firstPoint := points.headD ⟨0, 0⟩
    let lastPoint := points.getLastD ⟨0, 0⟩
    let distFirst := |firstPoint.x - faceCenter.x|
    let distLast := |lastPoint.x - faceCenter.x|
    -- `outerIdx = distFirst > distLast ? 0 : length-1`, `innerIdx` the other
    -- end, `points[outerIdx]`/`points[innerIdx]` — written directly on the
    -- endpoint values (the guard gives `length ≥ 3`, so index 0 and
    -- `length-1` are the first and last points).
    let outerCorner := if distFirst > distLast then firstPoint else lastPoint
    let innerCorner := if distFirst > distLast then lastPoint else firstPoint
    let drawOrder := if distFirst > distLast then points.reverse else points
    let wing : Option Pt :=
      if config.style = "winged" then
        let wingLength := thickness * 4
        let outwardX : ℚ := if outerCorner.x > faceCenter.x then 1 else -1
        some ⟨outerCorner.x + outwardX * wingLength * (4/5),
              outerCorner.y - wingLength * (3/5)⟩
      else none
    some ⟨drawOrder, innerCorner, outerCorner, wing⟩

/-- Render one stroke onto the surface: coverage within half the styled line
width of the drawn polyline (wing included), stroked in the configured color
at `globalAlpha = opacity` with the default `source-over` compositing. -/
def renderStroke (config : EyelinerSettings) (st : Stroke) (surf : Surface) :
    Surface :=
  let w := styledThickness config.style config.thickness
  let path := st.pts ++ (st.wing.map (fun q => [q])).getD []
  { surf with pix := (fun p =>
      if onStroke path w p then
        (compositePx .sourceOver (surf.pix p) (rgbToPx config.color)
          config.opacity)
      else surf.pix p) }

/-- The strokes drawn by `applyEyeliner(ctx, landmarks, width, height, scale,
settings)`: after the enabled/empty guard the source reads `landmarks[4]`
(the designated nose-tip landmark) without a length check — on a landmark
array of length 1..4 the `noseTip.x` access is a `TypeError`. -/
def applyEyelinerStrokes (settings : EyelinerPatch)
    (landmarks : Option (List Pt)) (scale : ℚ) :
    Except String (List Stroke) :=
  let config := DEFAULT_EYELINER.merge settings
  if ¬config.enabled then .ok []
  else
    match landmarks with
    | none => .ok []
    | some lms =>
      if lms.isEmpty then .ok []
      else
        match lms.get? 4 with
        | none => .error "TypeError"
        | some noseTip =>
          let faceCenter : Pt := ⟨noseTip.x * scale, noseTip.y * scale⟩
          .ok (([drawEyelinerLine lms "leftEyeUpper" scale config faceCenter,
                 drawEyelinerLine lms "rightEyeUpper" scale config faceCenter]).filterMap id)

/-- `applyEyeliner` as a surface transformer: the strokes of
`applyEyelinerStrokes` rendered in order (or the propagated `TypeError`). -/
def applyEyeliner (settings : EyelinerPatch) (landmarks : Option (List Pt))
    (scale : ℚ) (surf : Surface) : Except String Surface :=
  let config := DEFAULT_EYELINER.merge settings
  match applyEyelinerStrokes settings landmarks scale with
  | .error e => .error e
  | .ok strokes => .ok (strokes.foldl (fun s st => renderStroke config st s) surf)

end FaceMakeup

namespace FaceMakeup

/-! ## Contour (both contour modules of the repository) -/

/-- The radial stops of `drawContourRegion` in the jawline/nose contour
module: `${color}00` at the centre, `${color}40` midway, full color at the
edge. -/
def contourGradientStops : List (ℚ × ℚ) := [(0, 0), (1/2, 64/255), (1, 1)]

/-- `drawContourRegion(ctx, points, color, opacity, featherRadius)` from the
jawline/nose contour module: fill the closed region with a radial gradient
that is transparent at the bounding-box centre and reaches full color at
distance `radius = max(width, height)/2`, composited with `multiply` at
`globalAlpha = opacity`. -/
def drawContourRegion (pts : List Pt) (color : RGB) (opacity : ℚ)
    (surf : Surface) : Surface :=
  if pts.length < 3 then surf
  else
    let (minX, maxX, minY, maxY) := bbox pts
    let center := bboxCenter pts
    let radius := max (maxX - minX) (maxY - minY) / 2
    { surf with pix := (fun p =>
        if inPolygon pts p then
          (compositePx .multiply (surf.pix p) (rgbToPx color)
            (opacity *
              (if radius = 0 then 0
               else gradEvalSq contourGradientStops (distSq p center / radius ^ 2))))
        else surf.pix p) }

/-- `LEFT_CHEEK_HOLLOW` from the cheek-hollow contour module. -/
def LEFT_CHEEK_HOLLOW : List ℕ := [234, 227, 137, 177, 215, 138, 135, 169, 170, 140]

/-- `RIGHT_CHEEK_HOLLOW` from the cheek-hollow contour module. -/
def RIGHT_CHEEK_HOLLOW : List ℕ := [454, 447, 366, 401, 435, 367, 364, 394, 395, 369]

/-- `LEFT_TEMPLE` from the cheek-hollow contour module. -/
def LEFT_TEMPLE : List ℕ := [54, 103, 67, 109, 10]

/-- `RIGHT_TEMPLE` from the cheek-hollow contour module. -/
def RIGHT_TEMPLE : List ℕ := [284, 332, 297, 338, 10]

/-- `LEFT_NOSE_SIDE` from the cheek-hollow contour module. -/
def LEFT_NOSE_SIDE : List ℕ := [236, 198, 131, 49, 129]

/-- `RIGHT_NOSE_SIDE` from the cheek-hollow contour module. -/
def RIGHT_NOSE_SIDE : List ℕ := [456, 420, 360, 279, 358]

/-- `getPoints(landmarks, indices, scale)` from the cheek-hollow contour
module (and `getHighlightPoints` of highlight.js): the same
filter-then-scale as `getRegionPath`, on an inline index list. -/
def getPoints (lms : List Pt) (indices : List ℕ) (scale : ℚ) : List Pt :=
  (indices.filter (fun idx => idx < lms.length)).filterMap
    (fun idx => (lms.get? idx).map (fun pt => ⟨pt.x * scale, pt.y * scale⟩))

/-- `drawContourShadow(ctx, points, color, opacity, featherRadius)` from the
cheek-hollow contour module: the closed region is filled with the SOLID
contour color (no gradient) and softened only by `filter: blur(featherRadius
px)`, composited with `multiply` at `globalAlpha = opacity`. -/
def drawContourShadow (pts : List Pt) (color : RGB) (opacity : ℚ)
    (featherRadius : ℚ) (surf : Surface) : Surface :=
  if pts.length < 3 then surf
  else
    let coverage := boxBlur ⌊featherRadius⌋.toNat (fillRaster pts)
    { surf with pix := (fun p =>
        (compositePx .multiply (surf.pix p) (rgbToPx color)
          (opacity * coverage p / 255))) }

/-- The pre-blur paint laid down by `drawContourShadow` at a point of the
region: the solid fill color at full alpha (`ctx.fillStyle = color`), i.e.
alpha 1 everywhere inside the closed path — in particular at the bounding-box
centre. -/
def contourShadowPaintAlpha (pts : List Pt) (p : Pt) : ℚ :=
  if pts.length < 3 then 0 else if inPolygon pts p then 1 else 0

/-- The paint alpha laid down by `drawContourRegion` inside its region: the
radial ramp of `contourGradientStops` (sampled on the squared offset). -/
def contourRegionPaintAlpha (pts : List Pt) (p : Pt) : ℚ :=
  if pts.length < 3 then 0
  else
    let (minX, maxX, minY, maxY) := bbox pts
    let radius := max (maxX - minX) (maxY - minY) / 2
    if inPolygon pts p then
      (if radius = 0 then 0
       else gradEvalSq contourGradientStops (distSq p (bboxCenter pts) / radius ^ 2))
    else 0

/-- `drawNoseContour` from the cheek-hollow contour module: both nose sides
stroked (line width 4) under `filter: blur(featherRadius/2 px)`, composited
with `multiply` at `globalAlpha = opacity · 0.6`. -/
def drawNoseContour (left right : List Pt) (color : RGB) (opacity : ℚ)
    (featherRadius : ℚ) (surf : Surface) : Surface :=
  if left.length < 2 ∨ right.length < 2 then surf
  else
    let raster : Mask := fun p =>
      if onStroke left 4 p || onStroke right 4 p then 255 else 0
    let coverage := boxBlur ⌊featherRadius / 2⌋.toNat raster
    { surf with pix := (fun p =>
        (compositePx .multiply (surf.pix p) (rgbToPx color)
          (opacity * (3/5) * coverage p / 255))) }

/-- `applyContour(ctx, landmarks, width, height, scale, settings)` from the
cheek-hollow contour module: cheek hollows at `opacity·intensity`, temples at
half that, then the nose side lines. -/
def applyContour (settings : ContourPatch) (landmarks : Option (List Pt))
    (scale : ℚ) (surf : Surface) : Surface :=
  let config := DEFAULT_CONTOUR.merge settings
  if ¬config.enabled then surf
  else
    match landmarks with
    | none => surf
    | some lms =>
      if lms.isEmpty then surf
      else
        let opacity := config.opacity * config.intensity
        let s1 := drawContourShadow (getPoints lms LEFT_CHEEK_HOLLOW scale)
          config.color opacity config.featherRadius surf
        let s2 := drawContourShadow (getPoints lms RIGHT_CHEEK_HOLLOW scale)
          config.color opacity config.featherRadius s1
        let s3 := drawContourShadow (getPoints lms LEFT_TEMPLE scale)
          config.color (opacity * (1/2)) config.featherRadius s2
        let s4 := drawContourShadow (getPoints lms RIGHT_TEMPLE scale)
          config.color (opacity * (1/2)) config.featherRadius s3
        drawNoseContour (getPoints lms LEFT_NOSE_SIDE scale)
          (getPoints lms RIGHT_NOSE_SIDE scale) config.color opacity
          config.featherRadius s4

/-! ## Highlight (src/effects/highlight.js) -/

/-- `LEFT_CHEEKBONE` from highlight.js. -/
def LEFT_CHEEKBONE : List ℕ := [117, 118, 119, 47, 126]

/-- `RIGHT_CHEEKBONE` from highlight.js. -/
def RIGHT_CHEEKBONE : List ℕ := [346, 347, 348, 277, 355]

/-- `NOSE_HIGHLIGHT` from highlight.js. -/
def NOSE_HIGHLIGHT : List ℕ := [168, 6, 197, 195, 5]

/-- The radial stops of `drawHighlight`: full color at the centre, `${color}80`
midway, transparent at the edge — the reverse of the contour gradient. -/
def highlightGradientStops : List (ℚ × ℚ) := [(0, 1), (1/2, 128/255), (1, 0)]

/-- The paint alpha of the `drawHighlight` radial gradient at squared offset
`u = dist²/radius²` from the region centre. -/
def highlightPaintAlpha (u : ℚ) : ℚ := gradEvalSq highlightGradientStops u

/-- `drawHighlight(ctx, points, color, opacity, featherRadius, shimmer)` from
highlight.js: a filled circle of radius `max(width, height)/2 + featherRadius`
about the bounding-box centre, painted with the reverse radial gradient
(`overlay` at `globalAlpha = opacity`), plus an optional shimmer pass
(`screen` at `opacity · 0.5`). -/
def drawHighlight (pts : List Pt) (color : RGB) (opacity featherRadius : ℚ)
    (shimmer : Bool) (surf : Surface) : Surface :=
  if pts.length < 2 then surf
  else
    let (minX, maxX, minY, maxY) := bbox pts
    let center := bboxCenter pts
    let radius := max (maxX - minX) (maxY - minY) / 2 + featherRadius
    let afterFill : Surface :=
      { surf with pix := (fun p =>
          if distSq p center ≤ radius ^ 2 then
            (compositePx .overlay (surf.pix p) (rgbToPx color)
              (opacity *
                (if radius = 0 then 0
                 else highlightPaintAlpha (distSq p center / radius ^ 2))))
          else surf.pix p) }
    if shimmer then
      let shimmerCenter : Pt := ⟨center.x, center.y - radius * (1/5)⟩
      let shimmerRadius := radius * (3/5)
      { afterFill with pix := (fun p =>
          if distSq p center ≤ radius ^ 2 then
            (compositePx .screen (afterFill.pix p) ⟨1, 1, 1⟩
              (opacity * (1/2) *
                (if shimmerRadius = 0 then 0
                 else gradEvalSq shimmerStops (distSq p shimmerCenter / shimmerRadius ^ 2))))
          else afterFill.pix p) }
    else afterFill

/-- `applyHighlight(ctx, landmarks, width, height, scale, settings)`. -/
def applyHighlight (settings : HighlightPatch) (landmarks : Option (List Pt))
    (scale : ℚ) (surf : Surface) : Surface :=
  let config := DEFAULT_HIGHLIGHT.merge settings
  if ¬config.enabled then surf
  else
    match landmarks with
    | none => surf
    | some lms =>
      if lms.isEmpty then surf
      else
        let opacity := config.opacity * config.intensity
        let s1 := drawHighlight (getPoints lms LEFT_CHEEKBONE scale)
          config.color opacity config.featherRadius config.shimmer surf
        let s2 := drawHighlight (getPoints lms RIGHT_CHEEKBONE scale)
          config.color opacity config.featherRadius config.shimmer s1
        drawHighlight (getPoints lms NOSE_HIGHLIGHT scale) config.color
          (opacity * (7/10)) config.featherRadius config.shimmer s2

end FaceMakeup

namespace FaceMakeup

/-! ## Skin smoothing (the skin-smoothing module of presets.js) -/

/-- `SKIN_REGIONS` from the skin-smoothing module. -/
def SKIN_REGIONS : List String := ["leftCheek", "rightCheek", "forehead", "nose"]

/-- `EXCLUDE_REGIONS` from the skin-smoothing module. -/
def EXCLUDE_REGIONS : List String := ["leftEye", "rightEye", "upperLip", "lowerLip"]

/-- Source-over accumulation of coverage alphas on the `[0,255]` scale:
drawing a mask of alpha `src` over accumulated alpha `dst`. -/
def overCoverage (dst src : ℚ) : ℚ := src + dst * (255 - src) / 255

/-- `createSkinMask(landmarks, width, height, scale, config)`: the four skin
region masks (feather 10) drawn source-over onto one canvas, the exclusion
region masks (feather 5) removed one at a time with `destination-out`, then a
final feathering blur of `blurRadius/2`. The canvas value is the coverage
alpha (the code reads the red channel of the white-on-transparent mask as
alpha). -/
def createSkinMask (lms : List Pt) (scale : ℚ) (config : SkinSmoothingSettings) :
    Mask :=
  let skin : Mask := fun p =>
    SKIN_REGIONS.foldl
      (fun acc name => overCoverage acc (generateRegionMask lms name scale 10 p)) 0
  let afterExclude : Mask := fun p =>
    EXCLUDE_REGIONS.foldl
      (fun acc name => acc * (255 - generateRegionMask lms name scale 5 p) / 255)
      (skin p)
  boxBlur ⌊config.blurRadius / 2⌋.toNat afterExclude

/-- Clamp an integer to the byte range (`Uint8ClampedArray` assignment). -/
def clampByte (z : ℤ) : ℤ := max 0 (min 255 z)

/-- One channel of the skin-smoothing pixel loop, on the byte scale: for
positive mask coverage, `round(orig·(1 − m·strength) + (smooth +
(orig − smooth)·preserveTexture)·(m·strength))` clamped to a byte; otherwise
the original channel. -/
def smoothChannel (orig smooth mA strength tp : ℚ) : ℚ :=
  if 0 < mA then
    let blendAmount := mA * strength
    let texture := orig - smooth
    let blended := smooth + texture * tp
    (clampByte (jround (orig * (1 - blendAmount) + blended * blendAmount)) : ℚ)
  else orig

/-- Quantize a `[0,1]` channel to the byte grid (canvas raster storage). -/
def quantizeByte (c : ℚ) : ℚ := (clampByte (jround (c * 255)) : ℚ) / 255

/-- The smoothed image: the current surface blurred at `blurRadius` and
stored back into the byte raster of the offscreen canvas (`getImageData`
yields bytes). -/
def blurSurfaceBytes (r : ℕ) (surf : Surface) : Surface :=
  { surf with pix := (fun p =>
      ⟨quantizeByte (boxBlur r (fun q => (surf.pix q).r) p),
       quantizeByte (boxBlur r (fun q => (surf.pix q).g) p),
       quantizeByte (boxBlur r (fun q => (surf.pix q).b) p)⟩) }

/-- `applySkinSmoothing(ctx, originalImage, landmarks, width, height, scale,
settings)`: guard on `enabled`/landmarks/`originalImage`, blur the current
surface at `blurRadius`, build the skin mask, then blend each pixel channel
with `smoothChannel`. (As in the source, the pixels processed are those of the
live canvas, not of `originalImage`, which is only null-checked.) -/
def applySkinSmoothing (settings : SkinSmoothingPatch)
    (originalImage : Option Surface) (landmarks : Option (List Pt))
    (scale : ℚ) (surf : Surface) : Surface :=
  let config := DEFAULT_SKIN_SMOOTHING.merge settings
  if ¬config.enabled then surf
  else
    match landmarks with
    | none => surf
    | some lms =>
      if lms.isEmpty then surf
      else
        match originalImage with
        | none => surf
        | some _ =>
          let smoothS := blurSurfaceBytes ⌊config.blurRadius⌋.toNat surf
          let mask := createSkinMask lms scale config
          { surf with pix := (fun p =>
              let d := surf.pix p
              let s := smoothS.pix p
              let mA := mask p / 255
              ⟨smoothChannel (d.r * 255) (s.r * 255) mA config.strength
                config.preserveTexture / 255,
               smoothChannel (d.g * 255) (s.g * 255) mA config.strength
                config.preserveTexture / 255,
               smoothChannel (d.b * 255) (s.b * 255) mA config.strength
                config.preserveTexture / 255⟩) }

/-! ## The effect pipeline -/

/-- The aggregated per-effect settings held by the pipeline (the payloads
passed to each effect's `apply`). -/
structure PipelineSettings where
  lipstick : LipstickPatch
  eyeliner : EyelinerPatch
  eyeshadow : EyeshadowPatch
  blush : BlushPatch
  contour : ContourPatch
  highlight : HighlightPatch
  skinSmoothing : SkinSmoothingPatch

/-- All seven effects disabled after merging over their defaults. -/
def allDisabled (ps : PipelineSettings) : Prop :=
  (DEFAULT_LIPSTICK.merge ps.lipstick).enabled = false ∧
  (DEFAULT_EYELINER.merge ps.eyeliner).enabled = false ∧
  (DEFAULT_EYESHADOW.merge ps.eyeshadow).enabled = false ∧
  (DEFAULT_BLUSH.merge ps.blush).enabled = false ∧
  (DEFAULT_CONTOUR.merge ps.contour).enabled = false ∧
  (DEFAULT_HIGHLIGHT.merge ps.highlight).enabled = false ∧
  (DEFAULT_SKIN_SMOOTHING.merge ps.skinSmoothing).enabled = false

/-- Modelled from the spec: the repository ships the seven per-effect `apply`
functions but the aggregating `applyAll(surface, landmarks, scale)` entry
point itself is not under src/; per §2 of the spec it redraws every enabled
effect onto the freshly redrawn base image in the fixed back-to-front order —
skin smoothing as the pre-pass against the base image, then contour,
highlight, blush, eyeshadow, eyeliner, lipstick. -/
def applyAll (ps : PipelineSettings) (base : Surface)
    (landmarks : Option (List Pt)) (scale : ℚ) : Except String Surface :=
  let s0 := applySkinSmoothing ps.skinSmoothing (some base) landmarks scale base
  let s1 := applyContour ps.contour landmarks scale s0
  let s2 := applyHighlight ps.highlight landmarks scale s1
  let s3 := applyBlush ps.blush landmarks scale s2
  let s4 := applyEyeshadow ps.eyeshadow landmarks scale s3
  match applyEyeliner ps.eyeliner landmarks scale s4 with
  | .error e => .error e
  | .ok s5 => .ok (applyLipstick ps.lipstick landmarks scale s5)

end FaceMakeup

namespace FaceMakeup

/-! ## Concrete fixtures for witnesses and counterexamples -/

/-- A plain white 100×100 destination surface. -/
def whiteSurf : Surface := ⟨100, 100, fun _ => ⟨1, 1, 1⟩⟩

/-- A pipeline settings record with every effect explicitly disabled. -/
def disabledPipeline : PipelineSettings where
  lipstick := { enabled := some false }
  eyeliner := { enabled := some false }
  eyeshadow := { enabled := some false }
  blush := { enabled := some false }
  contour := { enabled := some false }
  highlight := { enabled := some false }
  skinSmoothing := { enabled := some false }

/-! ## Claim theorems -/

/-- C1: every effect's `apply` returns with the destination surface untouched
when its merged settings have `enabled = false`, and a full redraw
(`applyAll`) with all seven effects disabled is pixel-identical to the base
image alone. -/
theorem claim1_disabled_effects_leave_surface_unchanged
    (ps : PipelineSettings) (lms : Option (List Pt)) (scale : ℚ)
    (base surf : Surface) (h : allDisabled ps) :
    applyLipstick ps.lipstick lms scale surf = surf ∧
    applyEyeliner ps.eyeliner lms scale surf = .ok surf ∧
    applyEyeshadow ps.eyeshadow lms scale surf = surf ∧
    applyBlush ps.blush lms scale surf = surf ∧
    applyContour ps.contour lms scale surf = surf ∧
    applyHighlight ps.highlight lms scale surf = surf ∧
    applySkinSmoothing ps.skinSmoothing (some base) lms scale surf = surf ∧
    applyAll ps base lms scale = .ok base := by
  obtain ⟨h1, h2, h3, h4, h5, h6, h7⟩ := h
  have liner : applyEyeliner ps.eyeliner lms scale surf = .ok surf := by
    simp [applyEyeliner, applyEyelinerStrokes, h2]
  refine ⟨by simp [applyLipstick, h1], liner, by simp [applyEyeshadow, h3],
    by simp [applyBlush, h4], by simp [applyContour, h5],
    by simp [applyHighlight, h6], by simp [applySkinSmoothing, h7], ?_⟩
  simp [applyAll, applyEyeliner, applyEyelinerStrokes, applyLipstick,
    applyEyeshadow, applyBlush, applyContour, applyHighlight,
    applySkinSmoothing, h1, h2, h3, h4, h5, h6, h7]

/-- Witness for C1: the all-disabled settings record satisfies the hypothesis
and a full redraw over a concrete surface returns the base image. -/
theorem claim1_witness :
    allDisabled disabledPipeline ∧
    applyAll disabledPipeline whiteSurf none 1 = .ok whiteSurf :=
  ⟨⟨rfl, rfl, rfl, rfl, rfl, rfl, rfl⟩,
   (claim1_disabled_effects_leave_surface_unchanged disabledPipeline none 1
      whiteSurf whiteSurf ⟨rfl, rfl, rfl, rfl, rfl, rfl, rfl⟩).2.2.2.2.2.2.2⟩

/-- C4 (code bug): `applyEyeliner` of the face-centre-aware eyeliner module
reads `landmarks[4]` with no length guard after its own empty-landmarks check,
so a landmark array of length 1 (non-null, non-empty) makes `noseTip.x` a
`TypeError` that propagates to the caller instead of the effect being skipped
silently. -/
theorem claim4_short_landmarks_throw :
    applyEyelinerStrokes {} (some [⟨10, 10⟩]) 1 = .error "TypeError" ∧
    applyEyeliner {} (some [⟨10, 10⟩]) 1 whiteSurf = .error "TypeError" := by
  constructor <;> rfl

end FaceMakeup

namespace FaceMakeup

/-- Over a list of indices that are all in range, the exception-aware mapping
of `getRegionPathE` succeeds and produces exactly the scaled points of
`getRegionPath`. -/
theorem mapM_inRange_ok (lms : List Pt) (scale : ℚ) :
    ∀ l : List ℕ, (∀ i ∈ l, i < lms.length) →
    (l.mapM (fun idx =>
        match lms.get? idx with
        | some pt => Except.ok (⟨pt.x * scale, pt.y * scale⟩ : Pt)
        | none => Except.error "TypeError") : Except String (List Pt)) =
      .ok (l.filterMap (fun idx =>
        (lms.get? idx).map (fun pt => ⟨pt.x * scale, pt.y * scale⟩))) := by
  intro l
  induction l with
  | nil => intro _; rfl
  | cons i t ih =>
    intro h
    have hi : i < lms.length := h i (by simp)
    have ht : ∀ j ∈ t, j < lms.length := fun j hj => h j (by simp [hj])
    rw [List.mapM_cons, List.get?_eq_get hi, ih ht]
    rw [List.filterMap_cons]
    simp [List.getElem?_eq_getElem hi]
    rfl

/-- `getRegionPathE` never returns an error: all landmark accesses are behind
the `idx < landmarks.length` filter. -/
theorem getRegionPathE_ok (lms : List Pt) (regionName : String) (scale : ℚ) :
    getRegionPathE lms regionName scale = .ok (getRegionPath lms regionName scale) := by
  unfold getRegionPathE getRegionPath
  cases REGIONS regionName with
  | none => rfl
  | some indices =>
    by_cases he : lms.isEmpty = true
    · simp [he]
    · rw [Bool.not_eq_true] at he
      simp only [he, Bool.false_eq_true, if_false]
      exact mapM_inRange_ok lms scale _
        (fun i hi => of_decide_eq_true (List.mem_filter.mp hi).2)

end FaceMakeup

namespace FaceMakeup

/-- The landmark set used to refute C2: 169 landmarks (strictly fewer than the
maximum `noseBridge` index 197), with the four surviving `noseBridge` indices
168, 6, 5, 4 placed at the corners of a large square. -/
def shortLms : List Pt :=
  (List.range 169).map (fun i =>
    if i = 168 then ⟨10, 10⟩
    else if i = 6 then ⟨90, 10⟩
    else if i = 5 then ⟨90, 90⟩
    else if i = 4 then ⟨10, 90⟩
    else ⟨0, 0⟩)

unseal Rat.add Rat.sub Rat.mul Rat.inv in
/-- C2 counterexample: a LandmarkSet shorter than the maximum index referenced
by a region does NOT in general give an all-zero mask — with 169 landmarks
(`noseBridge` references up to 197) the four surviving points still form a
fillable polygon and the built mask is 255 at its centre. No exception is
raised (`getRegionPathE` is `.ok`), but the all-zero part of the claim fails. -/
theorem claim2_counterexample :
    shortLms.length = 169 ∧
    (∀ i ∈ NOSE_BRIDGE, i ≤ 197) ∧
    shortLms.length ≤ 197 ∧
    generateRegionMask shortLms "noseBridge" 1 0 ⟨50, 50⟩ = 255 ∧
    (255 : ℚ) ≠ 0 := by
  refine ⟨by decide, by decide, by decide, by decide, by norm_num⟩

/-- C2 (amended): building a region mask from a short LandmarkSet drops the
out-of-range indices and never raises an exception; the resulting mask is
all-zero whenever fewer than 3 indexed points survive (it is not all-zero in
general). -/
theorem claim2_short_landmarks_mask
    (lms : List Pt) (regionName : String) (scale featherRadius : ℚ) (p : Pt)
    (h : (getRegionPath lms regionName scale).length < 3) :
    getRegionPathE lms regionName scale = .ok (getRegionPath lms regionName scale) ∧
    generateRegionMask lms regionName scale featherRadius p = 0 := by
  refine ⟨getRegionPathE_ok lms regionName scale, ?_⟩
  unfold generateRegionMask
  simp only [if_pos h]
  rfl

unseal Rat.add Rat.sub Rat.mul Rat.inv in
/-- Witness for C2 (amended): five landmarks leave `noseBridge` with a single
surviving point, and the built mask is zero at a sample pixel. -/
theorem claim2_witness :
    (getRegionPath [⟨1, 1⟩, ⟨2, 2⟩, ⟨3, 3⟩, ⟨4, 4⟩, ⟨5, 5⟩] "noseBridge" 1).length < 3 ∧
    generateRegionMask [⟨1, 1⟩, ⟨2, 2⟩, ⟨3, 3⟩, ⟨4, 4⟩, ⟨5, 5⟩] "noseBridge" 1 3 ⟨50, 50⟩ = 0 :=
  ⟨by decide,
   (claim2_short_landmarks_mask [⟨1, 1⟩, ⟨2, 2⟩, ⟨3, 3⟩, ⟨4, 4⟩, ⟨5, 5⟩]
      "noseBridge" 1 3 ⟨50, 50⟩ (by decide)).2⟩

end FaceMakeup

namespace FaceMakeup

/-! ## Arithmetic and rasterization lemmas -/

/-- Drawing over an empty canvas keeps the drawn alpha. -/
theorem overCoverage_zero (a : ℚ) : overCoverage 0 a = a := by
  unfold overCoverage; ring

/-- Drawing anything over a fully covered canvas keeps full coverage. -/
theorem overCoverage_full (a : ℚ) : overCoverage 255 a = 255 := by
  unfold overCoverage; ring

/-- `Math.round` of an integer is that integer. -/
theorem jround_intCast (z : ℤ) : jround (z : ℚ) = z := by
  unfold jround
  rw [Int.floor_eq_iff]
  constructor <;> linarith

/-- Byte clamping is the identity on bytes. -/
theorem clampByte_of_mem (z : ℤ) (h0 : 0 ≤ z) (h255 : z ≤ 255) :
    clampByte z = z := by
  unfold clampByte; omega

/-- Byte clamping lands in the byte range. -/
theorem clampByte_range (z : ℤ) : 0 ≤ clampByte z ∧ clampByte z ≤ 255 := by
  unfold clampByte; omega

/-- Folding a constant-valued summand accumulates `length` copies. -/
theorem foldl_add_eq (c : ℚ) (f : ℚ → ℚ) :
    ∀ (l : List ℚ) (a : ℚ), (∀ x ∈ l, f x = c) →
      l.foldl (fun acc x => acc + f x) a = a + l.length * c := by
  intro l
  induction l with
  | nil => intro a _; simp
  | cons x t ih =>
    intro a h
    rw [List.foldl_cons, ih (a + f x) (fun y hy => h y (by simp [hy])),
      h x (by simp), List.length_cons]
    have : ((t.length + 1 : ℕ) : ℚ) = (t.length : ℚ) + 1 := by push_cast; ring
    rw [this]
    ring

/-- A box blur whose whole sampling window sees the constant `c` returns `c`. -/
theorem boxBlur_const (r : ℕ) (m : Mask) (p : Pt) (c : ℚ)
    (h : ∀ dx dy : ℚ, |dx| ≤ (r : ℚ) → |dy| ≤ (r : ℚ) →
      m ⟨p.x + dx, p.y + dy⟩ = c) :
    boxBlur r m p = c := by
  unfold boxBlur
  by_cases hr : r = 0
  · simpa [hr] using h 0 0 (by simp) (by simp)
  · simp only [hr, if_false]
    have hmem : ∀ x ∈ (List.range (2 * r + 1)).map (fun (i : ℕ) => (i : ℚ) - (r : ℚ)),
        |x| ≤ (r : ℚ) := by
      intro x hx
      simp only [List.mem_map, List.mem_range] at hx
      obtain ⟨i, hi, rfl⟩ := hx
      rw [abs_le]
      have : (i : ℚ) ≤ 2 * r := by
        have : i ≤ 2 * r := by omega
        exact_mod_cast this
      constructor <;> [linarith [Nat.cast_nonneg (α := ℚ) i]; linarith]
    have hlen : ((List.range (2 * r + 1)).map (fun (i : ℕ) => (i : ℚ) - (r : ℚ))).length
        = 2 * r + 1 := by simp
    rw [List.foldl_ext
      (g := fun acc _ => acc + ((2 * r + 1 : ℕ) : ℚ) * c) _ 0
      (fun a dy hdy => by
        rw [foldl_add_eq c _ _ a (fun dx hdx => h dx dy (hmem dx hdx) (hmem dy hdy)),
          hlen]),
      foldl_add_eq (((2 * r + 1 : ℕ) : ℚ) * c) _ _ 0 (fun _ _ => rfl), hlen]
    have : ((2 * r + 1 : ℕ) : ℚ) ≠ 0 := by positivity
    field_simp
    ring

/-- A degenerate (zero-length) edge contributes nothing to the winding
number; more generally neither does any edge at constant height. -/
theorem windEdge_horiz (q a b : Pt) (h : a.y = b.y) : windEdge q a b = 0 := by
  unfold windEdge
  by_cases h1 : a.y ≤ q.y
  · rw [if_pos h1, if_neg (by rw [← h]; linarith)]
  · rw [if_neg h1, if_neg (by rw [h] at h1; exact h1)]

/-- An upward vertical edge with the sample point strictly to its left and in
its height band contributes `+1` to the winding number. -/
theorem windEdge_up_left (q a b : Pt) (hx : a.x = b.x) (h1 : a.y ≤ q.y)
    (h2 : q.y < b.y) (h3 : q.x < a.x) : windEdge q a b = 1 := by
  unfold windEdge cross2
  rw [if_pos h1, if_pos h2, if_pos (by rw [← hx]; nlinarith)]

/-- A downward edge with the sample point on or right of the cross-product
sign boundary contributes nothing. -/
theorem windEdge_down_nonneg (q a b : Pt) (h1 : ¬ a.y ≤ q.y)
    (h2 : 0 ≤ cross2 a b q) : windEdge q a b = 0 := by
  unfold windEdge
  rw [if_neg h1]
  by_cases h3 : b.y ≤ q.y
  · rw [if_pos h3, if_neg (by linarith)]
  · rw [if_neg h3]

/-- A point list all of whose members coincide rasterizes to nothing: every
closed-path edge is degenerate, so the winding number vanishes everywhere. -/
theorem inPolygon_const (pts : List Pt) (c q : Pt)
    (h : ∀ a ∈ pts, a = c) : inPolygon pts q = false := by
  unfold inPolygon
  have hfold : ((closedEdges pts).foldl (fun w e => w + windEdge q e.1 e.2) 0) = 0 := by
    have hedge : ∀ e ∈ closedEdges pts, windEdge q e.1 e.2 = 0 := by
      intro e he
      unfold closedEdges at he
      match pts, h, he with
      | p0 :: rest, h, he =>
        have h1 := List.of_mem_zip he
        have e1 : e.1 = c := h e.1 h1.1
        have e2 : e.2 = c := by
          rcases List.mem_append.mp h1.2 with h2 | h2
          · exact h e.2 (List.mem_of_mem_tail h2)
          · simp at h2
            rw [h2]
            exact h p0 (by simp)
        rw [e1, e2]
        exact windEdge_horiz q c c rfl
    have : ∀ (l : List (Pt × Pt)) (a : ℤ), (∀ e ∈ l, windEdge q e.1 e.2 = 0) →
        l.foldl (fun w e => w + windEdge q e.1 e.2) a = a := by
      intro l
      induction l with
      | nil => intro a _; rfl
      | cons e t ih =>
        intro a hl
        rw [List.foldl_cons, hl e (by simp), add_zero]
        exact ih a (fun x hx => hl x (by simp [hx]))
    exact this _ 0 hedge
  simp [hfold]

end FaceMakeup

namespace FaceMakeup

/-- Landmark fixture for the skin-smoothing witness: 218 landmarks where the
`leftCheek` indices trace a large square (the indices beyond the four corners
all repeat the first corner, giving degenerate edges), and every other
landmark sits at the origin (so every other referenced region is a degenerate
point polygon). -/
def lms218 : List Pt :=
  (List.range 218).map (fun i =>
    if i = 118 then ⟨90, 10⟩
    else if i = 119 then ⟨90, 90⟩
    else if i = 120 then ⟨10, 90⟩
    else if i ∈ ([117, 121, 128, 217, 126, 142, 36, 205, 187, 123, 116] : List ℕ) then ⟨10, 10⟩
    else ⟨0, 0⟩)

/-- The `leftCheek` path of `lms218`: the square plus degenerate tail. -/
def sqPath : List Pt :=
  [⟨10, 10⟩, ⟨90, 10⟩, ⟨90, 90⟩, ⟨10, 90⟩, ⟨10, 10⟩, ⟨10, 10⟩, ⟨10, 10⟩,
   ⟨10, 10⟩, ⟨10, 10⟩, ⟨10, 10⟩, ⟨10, 10⟩, ⟨10, 10⟩, ⟨10, 10⟩, ⟨10, 10⟩, ⟨10, 10⟩]

/-- Any point strictly inside the square is covered by the `sqPath` fill: the
single upward right edge contributes winding `+1` and every other edge
contributes nothing. -/
theorem inPolygon_sqPath (q : Pt) (hx1 : 10 < q.x) (hx2 : q.x < 90)
    (hy1 : 10 < q.y) (hy2 : q.y < 90) : inPolygon sqPath q = true := by
  have hedges : closedEdges sqPath =
      [(⟨10, 10⟩, ⟨90, 10⟩), (⟨90, 10⟩, ⟨90, 90⟩), (⟨90, 90⟩, ⟨10, 90⟩),
       (⟨10, 90⟩, ⟨10, 10⟩), (⟨10, 10⟩, ⟨10, 10⟩), (⟨10, 10⟩, ⟨10, 10⟩),
       (⟨10, 10⟩, ⟨10, 10⟩), (⟨10, 10⟩, ⟨10, 10⟩), (⟨10, 10⟩, ⟨10, 10⟩),
       (⟨10, 10⟩, ⟨10, 10⟩), (⟨10, 10⟩, ⟨10, 10⟩), (⟨10, 10⟩, ⟨10, 10⟩),
       (⟨10, 10⟩, ⟨10, 10⟩), (⟨10, 10⟩, ⟨10, 10⟩), (⟨10, 10⟩, ⟨10, 10⟩)] := rfl
  unfold inPolygon
  rw [hedges]
  simp only [List.foldl_cons, List.foldl_nil]
  apply decide_eq_true
  rw [windEdge_horiz q ⟨10, 10⟩ ⟨90, 10⟩ rfl,
    windEdge_up_left q ⟨90, 10⟩ ⟨90, 90⟩ rfl (le_of_lt hy1) hy2 hx2,
    windEdge_horiz q ⟨90, 90⟩ ⟨10, 90⟩ rfl,
    windEdge_down_nonneg q ⟨10, 90⟩ ⟨10, 10⟩ (not_le.mpr hy2)
      (by unfold cross2; ring_nf; linarith),
    windEdge_horiz q ⟨10, 10⟩ ⟨10, 10⟩ rfl]
  norm_num

/-- A region whose surviving path is entirely at the origin yields an all-zero
mask, feathered or not. -/
theorem mask_const_path_zero (lms : List Pt) (name : String) (scale fr : ℚ)
    (p : Pt) (h : ∀ a ∈ getRegionPath lms name scale, a = (⟨0, 0⟩ : Pt)) :
    generateRegionMask lms name scale fr p = 0 := by
  unfold generateRegionMask
  by_cases hlen : (getRegionPath lms name scale).length < 3
  · rw [if_pos hlen]; rfl
  · rw [if_neg hlen]
    have hfill : ∀ q : Pt, fillRaster (getRegionPath lms name scale) q = 0 := by
      intro q
      unfold fillRaster
      rw [inPolygon_const _ ⟨0, 0⟩ q h]
      rfl
    by_cases hfr : fr > 0
    · rw [if_pos hfr]
      exact boxBlur_const _ _ _ _ (fun dx dy _ _ => hfill _)
    · rw [if_neg hfr]
      exact hfill p

unseal Rat.add Rat.sub Rat.mul Rat.inv in
/-- The `leftCheek` mask of `lms218` (feather 10) is fully opaque at the
centre of the square: the whole blur window lies strictly inside. -/
theorem leftCheek_mask_full :
    generateRegionMask lms218 "leftCheek" 1 10 ⟨50, 50⟩ = 255 := by
  have hpath : getRegionPath lms218 "leftCheek" 1 = sqPath := by decide
  unfold generateRegionMask
  rw [hpath, if_neg (by decide), if_pos (by norm_num),
    show (⌊(10 : ℚ)⌋.toNat) = 10 by rw [show ⌊(10 : ℚ)⌋ = (10 : ℤ) by norm_num]; rfl]
  refine boxBlur_const _ _ _ _ (fun dx dy hdx hdy => ?_)
  obtain ⟨hdx1, hdx2⟩ := abs_le.mp hdx
  obtain ⟨hdy1, hdy2⟩ := abs_le.mp hdy
  unfold fillRaster
  rw [inPolygon_sqPath ⟨50 + dx, 50 + dy⟩ (by push_cast at hdx1 ⊢; linarith)
    (by push_cast at hdx2 ⊢; linarith) (by push_cast at hdy1 ⊢; linarith)
    (by push_cast at hdy2 ⊢; linarith)]
  rfl

unseal Rat.add Rat.sub Rat.mul Rat.inv in
/-- With `blurRadius = 0`, the composite skin mask of `lms218` is fully
opaque at the square's centre: the cheek mask is full there, source-over
accumulation keeps full coverage, and every exclusion region is a degenerate
origin polygon contributing nothing. -/
theorem skinMask_lms218_full (config : SkinSmoothingSettings)
    (hbr : config.blurRadius = 0) :
    createSkinMask lms218 1 config ⟨50, 50⟩ = 255 := by
  unfold createSkinMask
  rw [hbr, show ((⌊(0 : ℚ) / 2⌋).toNat) = 0 by norm_num]
  unfold boxBlur
  rw [if_pos rfl]
  have hLE : generateRegionMask lms218 "leftEye" 1 5 ⟨50, 50⟩ = 0 :=
    mask_const_path_zero _ _ _ _ _ (by decide)
  have hRE : generateRegionMask lms218 "rightEye" 1 5 ⟨50, 50⟩ = 0 :=
    mask_const_path_zero _ _ _ _ _ (by decide)
  have hUL : generateRegionMask lms218 "upperLip" 1 5 ⟨50, 50⟩ = 0 :=
    mask_const_path_zero _ _ _ _ _ (by decide)
  have hLL : generateRegionMask lms218 "lowerLip" 1 5 ⟨50, 50⟩ = 0 :=
    mask_const_path_zero _ _ _ _ _ (by decide)
  simp only [SKIN_REGIONS, EXCLUDE_REGIONS, List.foldl_cons, List.foldl_nil]
  rw [overCoverage_zero, leftCheek_mask_full, overCoverage_full,
    overCoverage_full, overCoverage_full, hLE, hRE, hUL, hLL]
  norm_num

end FaceMakeup

namespace FaceMakeup

/-- All channels of a surface lie on the byte grid (canvas rasters store
8-bit channels). -/
def byteValued (surf : Surface) : Prop :=
  ∀ p : Pt, ∃ a b c : ℕ, a ≤ 255 ∧ b ≤ 255 ∧ c ≤ 255 ∧
    surf.pix p = ⟨(a : ℚ) / 255, (b : ℚ) / 255, (c : ℚ) / 255⟩

/-- `Math.round` of a byte-cast natural is itself. -/
theorem jround_byte (n : ℕ) : jround ((n : ℚ)) = (n : ℤ) := by
  rw [show ((n : ℚ)) = (((n : ℤ) : ℤ) : ℚ) by push_cast; ring]
  exact jround_intCast _

/-- The smoothing pixel loop at `strength = 0` returns the original byte. -/
theorem smoothChannel_strength_zero (orig smooth mA tp : ℚ)
    (h : ∃ n : ℕ, n ≤ 255 ∧ orig = (n : ℚ)) :
    smoothChannel orig smooth mA 0 tp = orig := by
  obtain ⟨n, hn, rfl⟩ := h
  unfold smoothChannel
  by_cases hm : 0 < mA
  · rw [if_pos hm]
    dsimp only
    rw [show ((n : ℚ) * (1 - mA * 0) + (smooth + ((n : ℚ) - smooth) * tp) * (mA * 0))
        = ((((n : ℤ)) : ℚ)) by push_cast; ring, jround_intCast,
      clampByte_of_mem _ (by positivity) (by exact_mod_cast hn)]
    push_cast
    ring
  · rw [if_neg hm]

/-- The smoothing pixel loop at full coverage, `strength = 1` and
`preserveTexture = 0` returns exactly the smoothed byte. -/
theorem smoothChannel_full_strength (orig smooth : ℚ)
    (h : ∃ z : ℤ, 0 ≤ z ∧ z ≤ 255 ∧ smooth = (z : ℚ)) :
    smoothChannel orig smooth 1 1 0 = smooth := by
  obtain ⟨z, hz0, hz1, rfl⟩ := h
  unfold smoothChannel
  rw [if_pos (by norm_num)]
  dsimp only
  rw [show (orig * (1 - 1 * 1) + ((z : ℚ) + (orig - (z : ℚ)) * 0) * (1 * 1))
      = ((z : ℚ)) by ring, jround_intCast, clampByte_of_mem _ hz0 hz1]

/-- The bytes stored by `quantizeByte`, rescaled, are clamped integers. -/
theorem quantizeByte_mul (c : ℚ) :
    ∃ z : ℤ, 0 ≤ z ∧ z ≤ 255 ∧ quantizeByte c * 255 = (z : ℚ) := by
  refine ⟨clampByte (jround (c * 255)), (clampByte_range _).1, (clampByte_range _).2, ?_⟩
  unfold quantizeByte
  field_simp

/-- C3: `applySkinSmoothing` with `strength = 0` leaves every pixel of the
(byte-valued) surface unchanged; with `strength = 1` and
`preserveTexture = 0`, every pixel under full skin-mask coverage equals the
corresponding pixel of the surface blurred at `blurRadius`. -/
theorem claim3_skin_smoothing_endpoints (settings : SkinSmoothingPatch)
    (img : Surface) (lms : List Pt) (scale : ℚ) (surf : Surface) (p : Pt) :
    ((DEFAULT_SKIN_SMOOTHING.merge settings).strength = 0 → byteValued surf →
      applySkinSmoothing settings (some img) (some lms) scale surf = surf) ∧
    ((DEFAULT_SKIN_SMOOTHING.merge settings).enabled = true →
     (DEFAULT_SKIN_SMOOTHING.merge settings).strength = 1 →
     (DEFAULT_SKIN_SMOOTHING.merge settings).preserveTexture = 0 →
     lms.isEmpty = false →
     createSkinMask lms scale (DEFAULT_SKIN_SMOOTHING.merge settings) p = 255 →
      (applySkinSmoothing settings (some img) (some lms) scale surf).pix p =
        (blurSurfaceBytes
          ⌊(DEFAULT_SKIN_SMOOTHING.merge settings).blurRadius⌋.toNat surf).pix p) := by
  constructor
  · intro hs hb
    unfold applySkinSmoothing
    by_cases he : (DEFAULT_SKIN_SMOOTHING.merge settings).enabled = true
    · rw [if_neg (by simp [he])]
      by_cases hemp : lms.isEmpty
      · simp [hemp]
      · simp only [Bool.not_eq_true] at hemp
        simp only [hemp, Bool.false_eq_true, if_false]
        obtain ⟨w, ht, pixf⟩ := surf
        congr 1
        funext q
        obtain ⟨a, b, c, ha, hbb, hc, hpx⟩ := hb q
        simp only at hpx
        simp only [hpx, hs]
        have expand : ∀ n : ℕ, ((n : ℚ) / 255) * 255 = (n : ℚ) := by
          intro n; field_simp
        rw [expand a, expand b, expand c,
          smoothChannel_strength_zero _ _ _ _ ⟨a, ha, rfl⟩,
          smoothChannel_strength_zero _ _ _ _ ⟨b, hbb, rfl⟩,
          smoothChannel_strength_zero _ _ _ _ ⟨c, hc, rfl⟩]
    · rw [if_pos (by simpa using he)]
  · intro hen hs ht hemp hmask
    unfold applySkinSmoothing
    rw [if_neg (by simp [hen])]
    simp only [hemp, Bool.false_eq_true, if_false]
    simp only [hmask, hs, ht]
    rw [show (255 : ℚ) / 255 = 1 by norm_num]
    simp only [blurSurfaceBytes]
    rw [smoothChannel_full_strength _ _ (quantizeByte_mul _),
      smoothChannel_full_strength _ _ (quantizeByte_mul _),
      smoothChannel_full_strength _ _ (quantizeByte_mul _)]
    have shrink : ∀ c : ℚ, quantizeByte c * 255 / 255 = quantizeByte c := by
      intro c; field_simp
    rw [shrink, shrink, shrink]

end FaceMakeup

namespace FaceMakeup

/-- A byte-valued grey test surface. -/
def greySurf : Surface := ⟨100, 100, fun _ => ⟨102/255, 153/255, 51/255⟩⟩

/-- Witness for C3: a concrete strength-0 run leaves the surface unchanged,
and a concrete full-strength, no-texture run with full mask coverage at the
square's centre equals the blurred surface there. -/
theorem claim3_witness :
    byteValued greySurf ∧
    (DEFAULT_SKIN_SMOOTHING.merge { strength := some 0 }).strength = 0 ∧
    applySkinSmoothing { strength := some 0 } (some whiteSurf) (some lms218) 1
      greySurf = greySurf ∧
    createSkinMask lms218 1
      (DEFAULT_SKIN_SMOOTHING.merge
        { enabled := some true, strength := some 1, preserveTexture := some 0,
          blurRadius := some 0 }) ⟨50, 50⟩ = 255 ∧
    (applySkinSmoothing
        { enabled := some true, strength := some 1, preserveTexture := some 0,
          blurRadius := some 0 } (some whiteSurf) (some lms218) 1 greySurf).pix ⟨50, 50⟩ =
      (blurSurfaceBytes
        ⌊(DEFAULT_SKIN_SMOOTHING.merge
            { enabled := some true, strength := some 1, preserveTexture := some 0,
              blurRadius := some 0 }).blurRadius⌋.toNat greySurf).pix ⟨50, 50⟩ := by
  have hb : byteValued greySurf := fun p =>
    ⟨102, 153, 51, by norm_num, by norm_num, by norm_num, rfl⟩
  have hmask : createSkinMask lms218 1
      (DEFAULT_SKIN_SMOOTHING.merge
        { enabled := some true, strength := some 1, preserveTexture := some 0,
          blurRadius := some 0 }) ⟨50, 50⟩ = 255 :=
    skinMask_lms218_full _ rfl
  refine ⟨hb, rfl, ?_, hmask, ?_⟩
  · exact (claim3_skin_smoothing_endpoints { strength := some 0 } whiteSurf
      lms218 1 greySurf ⟨50, 50⟩).1 rfl hb
  · exact (claim3_skin_smoothing_endpoints
      { enabled := some true, strength := some 1, preserveTexture := some 0,
        blurRadius := some 0 } whiteSurf lms218 1 greySurf ⟨50, 50⟩).2 rfl rfl rfl
      (by decide) hmask

end FaceMakeup

namespace FaceMakeup

/-- The stroke built by `drawEyelinerLine` starts at one endpoint of the
resolved upper-lid path and finishes at the other; the finish (the outer
corner) is at least as far horizontally from the face centre as the start,
and strictly farther when the endpoint distances differ. -/
theorem drawEyelinerLine_corners (lms : List Pt) (region : String) (scale : ℚ)
    (config : EyelinerSettings) (fc : Pt) (st : Stroke)
    (h : drawEyelinerLine lms region scale config fc = some st) :
    ((st.start = (getRegionPath lms region scale).headD ⟨0, 0⟩ ∧
      st.finish = (getRegionPath lms region scale).getLastD ⟨0, 0⟩) ∨
     (st.start = (getRegionPath lms region scale).getLastD ⟨0, 0⟩ ∧
      st.finish = (getRegionPath lms region scale).headD ⟨0, 0⟩)) ∧
    |st.start.x - fc.x| ≤ |st.finish.x - fc.x| ∧
    (|((getRegionPath lms region scale).headD ⟨0, 0⟩).x - fc.x| ≠
        |((getRegionPath lms region scale).getLastD ⟨0, 0⟩).x - fc.x| →
      |st.start.x - fc.x| < |st.finish.x - fc.x|) := by
  unfold drawEyelinerLine at h
  by_cases hlen : (getRegionPath lms region scale).length < 3
  · rw [if_pos hlen] at h
    exact absurd h (by simp)
  · rw [if_neg hlen] at h
    simp only [Option.some.injEq] at h
    subst h
    dsimp only
    split_ifs with hd
    · exact ⟨Or.inr ⟨rfl, rfl⟩, le_of_lt hd, fun _ => hd⟩
    · exact ⟨Or.inl ⟨rfl, rfl⟩, not_lt.mp hd,
        fun hne => lt_of_le_of_ne (not_lt.mp hd) hne⟩

end FaceMakeup

namespace FaceMakeup

/-- C6: every eyeliner stroke drawn by `applyEyeliner` is drawn over one of
the two upper-lid region paths, from the path endpoint nearer the face's
horizontal centre — taken from landmark 4 (the designated nose tip), scaled —
to the endpoint at least as far (strictly farther whenever the endpoint
distances differ), regardless of the left/right ordering of the path. -/
theorem claim6_eyeliner_outer_corner (settings : EyelinerPatch) (lms : List Pt)
    (scale : ℚ) (strokes : List Stroke)
    (hok : applyEyelinerStrokes settings (some lms) scale = .ok strokes)
    (st : Stroke) (hst : st ∈ strokes) :
    ∃ noseTip : Pt, lms.get? 4 = some noseTip ∧
    ∃ region ∈ (["leftEyeUpper", "rightEyeUpper"] : List String),
      ((st.start = (getRegionPath lms region scale).headD ⟨0, 0⟩ ∧
        st.finish = (getRegionPath lms region scale).getLastD ⟨0, 0⟩) ∨
       (st.start = (getRegionPath lms region scale).getLastD ⟨0, 0⟩ ∧
        st.finish = (getRegionPath lms region scale).headD ⟨0, 0⟩)) ∧
      |st.start.x - noseTip.x * scale| ≤ |st.finish.x - noseTip.x * scale| ∧
      (|((getRegionPath lms region scale).headD ⟨0, 0⟩).x - noseTip.x * scale| ≠
          |((getRegionPath lms region scale).getLastD ⟨0, 0⟩).x - noseTip.x * scale| →
        |st.start.x - noseTip.x * scale| < |st.finish.x - noseTip.x * scale|) := by
  unfold applyEyelinerStrokes at hok
  by_cases hen : (DEFAULT_EYELINER.merge settings).enabled = true
  · rw [if_neg (by simp [hen])] at hok
    by_cases hemp : lms.isEmpty
    · simp only [hemp, if_true, Except.ok.injEq] at hok
      subst hok
      exact absurd hst (by simp)
    · simp only [Bool.not_eq_true] at hemp
      simp only [hemp, Bool.false_eq_true, if_false] at hok
      cases hnt : lms.get? 4 with
      | none => rw [hnt] at hok; exact absurd hok (by simp)
      | some noseTip =>
        rw [hnt] at hok
        simp only [Except.ok.injEq] at hok
        subst hok
        refine ⟨noseTip, rfl, ?_⟩
        rcases List.mem_filterMap.mp hst with ⟨o, ho, hid⟩
        rw [id_eq] at hid
        subst hid
        rcases List.mem_cons.mp ho with h1 | h2
        · refine ⟨"leftEyeUpper", List.mem_cons_self _ _, ?_⟩
          exact drawEyelinerLine_corners lms "leftEyeUpper" scale
            (DEFAULT_EYELINER.merge settings)
            ⟨noseTip.x * scale, noseTip.y * scale⟩ st h1.symm
        · have h2s := List.mem_singleton.mp h2
          refine ⟨"rightEyeUpper",
            List.mem_cons_of_mem _ (List.mem_cons_self _ _), ?_⟩
          exact drawEyelinerLine_corners lms "rightEyeUpper" scale
            (DEFAULT_EYELINER.merge settings)
            ⟨noseTip.x * scale, noseTip.y * scale⟩ st h2s.symm
  · rw [if_pos (by simpa using hen)] at hok
    simp only [Except.ok.injEq] at hok
    subst hok
    exact absurd hst (by simp)

end FaceMakeup

namespace FaceMakeup

/-- Decidable equality for `Except` results (not derived in core). -/
instance {ε α : Type} [DecidableEq ε] [DecidableEq α] :
    DecidableEq (Except ε α) := fun x y =>
  match x, y with
  | .ok a, .ok b => decidable_of_iff (a = b) (by simp)
  | .error a, .error b => decidable_of_iff (a = b) (by simp)
  | .ok _, .error _ => isFalse (by simp)
  | .error _, .ok _ => isFalse (by simp)

/-- Landmark fixture for the eyeliner witness: 162 landmarks placing seven of
the left upper-lid indices on an arc from (10,50) to (70,50) and the nose tip
(index 4) at x = 80, so the path's first point is the outer corner. -/
def eyeLms : List Pt :=
  (List.range 162).map (fun i =>
    if i = 33 then ⟨10, 50⟩
    else if i = 161 then ⟨20, 45⟩
    else if i = 160 then ⟨30, 42⟩
    else if i = 159 then ⟨40, 40⟩
    else if i = 158 then ⟨50, 42⟩
    else if i = 157 then ⟨60, 45⟩
    else if i = 133 then ⟨70, 50⟩
    else if i = 4 then ⟨80, 100⟩
    else ⟨0, 0⟩)

/-- The single stroke `applyEyeliner` draws over `eyeLms`: reversed draw
order, from the inner corner (70,50) to the outer corner (10,50). -/
def eyeStroke : Stroke :=
  ⟨[⟨70, 50⟩, ⟨60, 45⟩, ⟨50, 42⟩, ⟨40, 40⟩, ⟨30, 42⟩, ⟨20, 45⟩, ⟨10, 50⟩],
   ⟨70, 50⟩, ⟨10, 50⟩, none⟩

unseal Rat.add Rat.sub Rat.mul Rat.inv in
/-- Witness for C6: the concrete eyeliner run produces exactly `eyeStroke`,
whose endpoints satisfy the outer-corner property. -/
theorem claim6_witness :
    applyEyelinerStrokes {} (some eyeLms) 1 = .ok [eyeStroke] ∧
    (∃ noseTip : Pt, eyeLms.get? 4 = some noseTip ∧
     ∃ region ∈ (["leftEyeUpper", "rightEyeUpper"] : List String),
      ((eyeStroke.start = (getRegionPath eyeLms region 1).headD ⟨0, 0⟩ ∧
        eyeStroke.finish = (getRegionPath eyeLms region 1).getLastD ⟨0, 0⟩) ∨
       (eyeStroke.start = (getRegionPath eyeLms region 1).getLastD ⟨0, 0⟩ ∧
        eyeStroke.finish = (getRegionPath eyeLms region 1).headD ⟨0, 0⟩)) ∧
      |eyeStroke.start.x - noseTip.x * 1| ≤ |eyeStroke.finish.x - noseTip.x * 1| ∧
      (|((getRegionPath eyeLms region 1).headD ⟨0, 0⟩).x - noseTip.x * 1| ≠
          |((getRegionPath eyeLms region 1).getLastD ⟨0, 0⟩).x - noseTip.x * 1| →
        |eyeStroke.start.x - noseTip.x * 1| < |eyeStroke.finish.x - noseTip.x * 1|)) :=
  ⟨by decide,
   claim6_eyeliner_outer_corner {} eyeLms 1 [eyeStroke] (by decide) eyeStroke
     (List.mem_singleton.mpr rfl)⟩

end FaceMakeup

namespace FaceMakeup

/-! ## Settings mutations (the effect classes' setters and `update`) -/

/-- The aggregated full settings records held by the seven effect instances. -/
structure PipelineState where
  lipstick : LipstickSettings
  eyeliner : EyelinerSettings
  eyeshadow : EyeshadowSettings
  blush : BlushSettings
  contour : ContourSettings
  highlight : HighlightSettings
  skinSmoothing : SkinSmoothingSettings
deriving DecidableEq, Repr

/-- The pipeline state at effect construction: every effect's defaults. -/
def defaultState : PipelineState :=
  ⟨DEFAULT_LIPSTICK, DEFAULT_EYELINER, DEFAULT_EYESHADOW, DEFAULT_BLUSH,
   DEFAULT_CONTOUR, DEFAULT_HIGHLIGHT, DEFAULT_SKIN_SMOOTHING⟩

/-- One settings mutation: an individual setter call of some effect class, or
an `update(partial)` merge (`Object.assign`, no clamping). -/
inductive Mutation where
  | lipSetEnabled (b : Bool) | lipSetColor (c : RGB) | lipSetOpacity (v : ℚ)
  | lipSetIntensity (v : ℚ) | lipSetBlendMode (m : BlendMode)
  | linerSetEnabled (b : Bool) | linerSetColor (c : RGB)
  | linerSetThickness (v : ℚ) | linerSetOpacity (v : ℚ) | linerSetStyle (s : String)
  | shadowSetEnabled (b : Bool) | shadowSetColor (c : RGB) | shadowSetOpacity (v : ℚ)
  | shadowSetSpread (v : ℚ) | shadowSetIntensity (v : ℚ) | shadowSetShimmer (b : Bool)
  | blushSetEnabled (b : Bool) | blushSetColor (c : RGB) | blushSetOpacity (v : ℚ)
  | contourSetEnabled (b : Bool) | contourSetColor (c : RGB) | contourSetOpacity (v : ℚ)
  | highlightSetEnabled (b : Bool) | highlightSetColor (c : RGB)
  | highlightSetOpacity (v : ℚ)
  | skinSetEnabled (b : Bool) | skinSetStrength (v : ℚ) | skinSetPreserveTexture (v : ℚ)
  | lipUpdate (p : LipstickPatch) | linerUpdate (p : EyelinerPatch)
  | shadowUpdate (p : EyeshadowPatch) | blushUpdate (p : BlushPatch)
  | contourUpdate (p : ContourPatch) | highlightUpdate (p : HighlightPatch)
  | skinUpdate (p : SkinSmoothingPatch)

/-- Apply one mutation to the aggregated settings, following the setter and
`update` implementations of the effect classes. -/
def applyMutation (st : PipelineState) (m : Mutation) : PipelineState :=
  match m with
  | .lipSetEnabled b => { st with lipstick := { st.lipstick with enabled := b } }
  | .lipSetColor c => { st with lipstick := { st.lipstick with color := c } }
  | .lipSetOpacity v => { st with lipstick := st.lipstick.setOpacity v }
  | .lipSetIntensity v => { st with lipstick := st.lipstick.setIntensity v }
  | .lipSetBlendMode bm => { st with lipstick := { st.lipstick with blendMode := bm } }
  | .linerSetEnabled b => { st with eyeliner := { st.eyeliner with enabled := b } }
  | .linerSetColor c => { st with eyeliner := { st.eyeliner with color := c } }
  | .linerSetThickness v => { st with eyeliner := st.eyeliner.setThickness v }
  | .linerSetOpacity v => { st with eyeliner := st.eyeliner.setOpacity v }
  | .linerSetStyle s => { st with eyeliner := { st.eyeliner with style := s } }
  | .shadowSetEnabled b => { st with eyeshadow := { st.eyeshadow with enabled := b } }
  | .shadowSetColor c => { st with eyeshadow := { st.eyeshadow with color := c } }
  | .shadowSetOpacity v => { st with eyeshadow := st.eyeshadow.setOpacity v }
  | .shadowSetSpread v => { st with eyeshadow := st.eyeshadow.setSpread v }
  | .shadowSetIntensity v => { st with eyeshadow := st.eyeshadow.setIntensity v }
  | .shadowSetShimmer b => { st with eyeshadow := { st.eyeshadow with shimmer := b } }
  | .blushSetEnabled b => { st with blush := { st.blush with enabled := b } }
  | .blushSetColor c => { st with blush := { st.blush with color := c } }
  | .blushSetOpacity v => { st with blush := st.blush.setOpacity v }
  | .contourSetEnabled b => { st with contour := { st.contour with enabled := b } }
  | .contourSetColor c => { st with contour := { st.contour with color := c } }
  | .contourSetOpacity v => { st with contour := st.contour.setOpacity v }
  | .highlightSetEnabled b => { st with highlight := { st.highlight with enabled := b } }
  | .highlightSetColor c => { st with highlight := { st.highlight with color := c } }
  | .highlightSetOpacity v => { st with highlight := st.highlight.setOpacity v }
  | .skinSetEnabled b =>
      { st with skinSmoothing := { st.skinSmoothing with enabled := b } }
  | .skinSetStrength v => { st with skinSmoothing := st.skinSmoothing.setStrength v }
  | .skinSetPreserveTexture v =>
      { st with skinSmoothing := st.skinSmoothing.setPreserveTexture v }
  | .lipUpdate p => { st with lipstick := st.lipstick.merge p }
  | .linerUpdate p => { st with eyeliner := st.eyeliner.merge p }
  | .shadowUpdate p => { st with eyeshadow := st.eyeshadow.merge p }
  | .blushUpdate p => { st with blush := st.blush.merge p }
  | .contourUpdate p => { st with contour := st.contour.merge p }
  | .highlightUpdate p => { st with highlight := st.highlight.merge p }
  | .skinUpdate p => { st with skinSmoothing := st.skinSmoothing.merge p }

/-- Whether a mutation is an individual setter call (not an `update` merge). -/
def isSetter : Mutation → Bool
  | .lipUpdate _ | .linerUpdate _ | .shadowUpdate _ | .blushUpdate _
  | .contourUpdate _ | .highlightUpdate _ | .skinUpdate _ => false
  | _ => true

/-- The documented numeric bounds of the claim: opacities and intensities in
`[0,1]`, eyeliner thickness in `[1,10]`, eyeshadow spread in `[0.3,2]` (plus
the skin-smoothing strength/texture fractions in `[0,1]`). -/
def settingsInBounds (st : PipelineState) : Prop :=
  0 ≤ st.lipstick.opacity ∧ st.lipstick.opacity ≤ 1 ∧
  0 ≤ st.lipstick.intensity ∧ st.lipstick.intensity ≤ 1 ∧
  1 ≤ st.eyeliner.thickness ∧ st.eyeliner.thickness ≤ 10 ∧
  0 ≤ st.eyeliner.opacity ∧ st.eyeliner.opacity ≤ 1 ∧
  0 ≤ st.eyeshadow.opacity ∧ st.eyeshadow.opacity ≤ 1 ∧
  3/10 ≤ st.eyeshadow.spread ∧ st.eyeshadow.spread ≤ 2 ∧
  0 ≤ st.eyeshadow.intensity ∧ st.eyeshadow.intensity ≤ 1 ∧
  0 ≤ st.blush.opacity ∧ st.blush.opacity ≤ 1 ∧
  0 ≤ st.contour.opacity ∧ st.contour.opacity ≤ 1 ∧
  0 ≤ st.highlight.opacity ∧ st.highlight.opacity ≤ 1 ∧
  0 ≤ st.skinSmoothing.strength ∧ st.skinSmoothing.strength ≤ 1 ∧
  0 ≤ st.skinSmoothing.preserveTexture ∧ st.skinSmoothing.preserveTexture ≤ 1

/-- Clamping lands in the interval. -/
theorem clampQ_mem (lo hi v : ℚ) (h : lo ≤ hi) :
    lo ≤ clampQ lo hi v ∧ clampQ lo hi v ≤ hi := by
  unfold clampQ
  constructor
  · exact le_max_left _ _
  · rcases le_total v hi with hv | hv
    · simp [min_le_iff, max_le_iff, hv, h]
    · simp [min_le_iff, max_le_iff, h]

/-- One setter call preserves the documented bounds. -/
theorem applyMutation_setter_preserves (st : PipelineState) (m : Mutation)
    (hb : settingsInBounds st) (hm : isSetter m = true) :
    settingsInBounds (applyMutation st m) := by
  obtain ⟨h1, h2, h3, h4, h5, h6, h7, h8, h9, h10, h11, h12, h13, h14, h15,
    h16, h17, h18, h19, h20, h21, h22, h23, h24⟩ := hb
  cases m <;>
    simp_all [applyMutation, settingsInBounds, isSetter,
      LipstickSettings.setOpacity, LipstickSettings.setIntensity,
      EyelinerSettings.setThickness, EyelinerSettings.setOpacity,
      EyeshadowSettings.setOpacity, EyeshadowSettings.setSpread,
      EyeshadowSettings.setIntensity, BlushSettings.setOpacity,
      ContourSettings.setOpacity, HighlightSettings.setOpacity,
      SkinSmoothingSettings.setStrength, SkinSmoothingSettings.setPreserveTexture] <;>
    first
      | exact clampQ_mem 0 1 _ (by norm_num) |>.1
      | constructor <;> [exact (clampQ_mem _ _ _ (by norm_num)).1;
          exact (clampQ_mem _ _ _ (by norm_num)).2]

end FaceMakeup

namespace FaceMakeup

/-- C7 counterexample: an `update(partial)` merge stores an out-of-range value
as-is — `update({opacity: 5})` on the default lipstick settings leaves
`opacity = 5`, outside `[0,1]`, so the claim fails for mutation sequences that
include `update`. -/
theorem claim7_counterexample :
    (applyMutation defaultState
        (.lipUpdate { opacity := some 5 })).lipstick.opacity = 5 ∧
    ¬ settingsInBounds (applyMutation defaultState
        (.lipUpdate { opacity := some 5 })) := by
  constructor
  · rfl
  · intro hb
    have := hb.2.1
    rw [show (applyMutation defaultState
        (.lipUpdate { opacity := some 5 })).lipstick.opacity = 5 from rfl] at this
    norm_num at this

/-- C7 (amended): after any sequence of individual setter calls, every numeric
setting stays within its documented bounds — out-of-range setter inputs are
clamped; `update(partial)` merges, by contrast, store raw values. -/
theorem claim7_setters_clamp (st : PipelineState) (ms : List Mutation)
    (hb : settingsInBounds st) (hs : ∀ m ∈ ms, isSetter m = true) :
    settingsInBounds (ms.foldl applyMutation st) := by
  induction ms generalizing st with
  | nil => exact hb
  | cons m t ih =>
    rw [List.foldl_cons]
    exact ih (applyMutation st m)
      (applyMutation_setter_preserves st m hb (hs m (by simp)))
      (fun x hx => hs x (by simp [hx]))

/-- Witness for C7: the defaults are in bounds, the sample mutations are all
setters (with deliberately out-of-range inputs), and the final state is in
bounds. -/
theorem claim7_witness :
    settingsInBounds defaultState ∧
    (∀ m ∈ ([.lipSetOpacity 5, .linerSetThickness 100, .shadowSetSpread 0,
        .skinSetStrength (-3)] : List Mutation), isSetter m = true) ∧
    settingsInBounds
      (([.lipSetOpacity 5, .linerSetThickness 100, .shadowSetSpread 0,
        .skinSetStrength (-3)] : List Mutation).foldl applyMutation defaultState) := by
  refine ⟨?_, ?_, ?_⟩
  · refine ⟨?_, ?_, ?_, ?_, ?_, ?_, ?_, ?_, ?_, ?_, ?_, ?_, ?_, ?_, ?_, ?_,
      ?_, ?_, ?_, ?_, ?_, ?_, ?_, ?_⟩ <;> norm_num [defaultState,
      DEFAULT_LIPSTICK, DEFAULT_EYELINER, DEFAULT_EYESHADOW, DEFAULT_BLUSH,
      DEFAULT_CONTOUR, DEFAULT_HIGHLIGHT, DEFAULT_SKIN_SMOOTHING]
  · intro m hm
    fin_cases hm <;> rfl
  · refine claim7_setters_clamp defaultState _ ?_ ?_
    · refine ⟨?_, ?_, ?_, ?_, ?_, ?_, ?_, ?_, ?_, ?_, ?_, ?_, ?_, ?_, ?_, ?_,
        ?_, ?_, ?_, ?_, ?_, ?_, ?_, ?_⟩ <;> norm_num [defaultState,
        DEFAULT_LIPSTICK, DEFAULT_EYELINER, DEFAULT_EYESHADOW, DEFAULT_BLUSH,
        DEFAULT_CONTOUR, DEFAULT_HIGHLIGHT, DEFAULT_SKIN_SMOOTHING]
    · intro m hm
      fin_cases hm <;> rfl

end FaceMakeup

namespace FaceMakeup

/-- The blush settings used to refute C8: enabled, black color, opacity 0.8,
intensity 0.5, no feathering. -/
def cexBlush : BlushPatch :=
  { enabled := some true, color := some ⟨0, 0, 0⟩, opacity := some (4/5),
    intensity := some (1/2), featherRadius := some 0 }

unseal Rat.add Rat.sub Rat.mul Rat.inv in
/-- C8 counterexample: with opacity 0.8 and intensity 0.5, `applyBlush` does
NOT composite at global opacity `opacity` — at the cheek-mask centre the
actual pixel (global alpha `opacity·intensity = 0.4`) differs from the pixel
the claim predicts (global alpha `opacity = 0.8`). -/
theorem claim8_counterexample :
    (applyBlush cexBlush (some lms218) 1 whiteSurf).pix ⟨50, 50⟩ ≠
      (compositeMasked whiteSurf
        (generateCombinedMask lms218 ["leftCheek", "rightCheek"] 1
          (DEFAULT_BLUSH.merge cexBlush).featherRadius)
        (DEFAULT_BLUSH.merge cexBlush).color
        (DEFAULT_BLUSH.merge cexBlush).blendMode
        (DEFAULT_BLUSH.merge cexBlush).opacity).pix ⟨50, 50⟩ := by decide

/-- C8 (amended): `applyBlush` composites its masked color layer at global
opacity `opacity · intensity` — intensity scales the blush alpha rather than
pre-adjusting color saturation — while `applyLipstick` composites at
`opacity` alone, its `intensity` only pre-adjusting the color's saturation. -/
theorem claim8_blush_composites_at_opacity_times_intensity
    (bset : BlushPatch) (lset : LipstickPatch) (lms : List Pt) (scale : ℚ)
    (surf : Surface)
    (hbe : (DEFAULT_BLUSH.merge bset).enabled = true)
    (hle : (DEFAULT_LIPSTICK.merge lset).enabled = true)
    (hne : lms.isEmpty = false) :
    applyBlush bset (some lms) scale surf =
      compositeMasked surf
        (generateCombinedMask lms ["leftCheek", "rightCheek"] scale
          (DEFAULT_BLUSH.merge bset).featherRadius)
        (DEFAULT_BLUSH.merge bset).color
        (DEFAULT_BLUSH.merge bset).blendMode
        ((DEFAULT_BLUSH.merge bset).opacity * (DEFAULT_BLUSH.merge bset).intensity) ∧
    applyLipstick lset (some lms) scale surf =
      compositeMasked surf
        (generateCombinedMask lms ["upperLip", "lowerLip"] scale
          (DEFAULT_LIPSTICK.merge lset).featherRadius)
        (adjustColorIntensity (DEFAULT_LIPSTICK.merge lset).color
          (DEFAULT_LIPSTICK.merge lset).intensity)
        (DEFAULT_LIPSTICK.merge lset).blendMode
        (DEFAULT_LIPSTICK.merge lset).opacity := by
  constructor
  · unfold applyBlush
    rw [if_neg (by simp [hbe])]
    simp [hne]
  · unfold applyLipstick
    rw [if_neg (by simp [hle])]
    simp [hne]

unseal Rat.add Rat.sub Rat.mul Rat.inv in
/-- Witness for C8 (amended): a concrete enabled blush and lipstick run over
a non-empty landmark list. -/
theorem claim8_witness :
    (DEFAULT_BLUSH.merge cexBlush).enabled = true ∧
    (DEFAULT_LIPSTICK.merge {}).enabled = true ∧
    lms218.isEmpty = false ∧
    applyBlush cexBlush (some lms218) 1 whiteSurf =
      compositeMasked whiteSurf
        (generateCombinedMask lms218 ["leftCheek", "rightCheek"] 1
          (DEFAULT_BLUSH.merge cexBlush).featherRadius)
        (DEFAULT_BLUSH.merge cexBlush).color
        (DEFAULT_BLUSH.merge cexBlush).blendMode
        ((DEFAULT_BLUSH.merge cexBlush).opacity *
          (DEFAULT_BLUSH.merge cexBlush).intensity) :=
  ⟨rfl, rfl, by decide,
   (claim8_blush_composites_at_opacity_times_intensity cexBlush {} lms218 1
      whiteSurf rfl rfl (by decide)).1⟩

end FaceMakeup

namespace FaceMakeup

/-- Landmark fixture for C9: 247 landmarks placing the nine left upper-lid
indices on a deep V, so the open polyline's closed fill has interior points
far from every polyline segment. -/
def eyeLms9 : List Pt :=
  (List.range 247).map (fun i =>
    if i = 33 then ⟨10, 10⟩
    else if i = 246 then ⟨20, 35⟩
    else if i = 161 then ⟨30, 55⟩
    else if i = 160 then ⟨40, 70⟩
    else if i = 159 then ⟨50, 75⟩
    else if i = 158 then ⟨60, 70⟩
    else if i = 157 then ⟨70, 55⟩
    else if i = 173 then ⟨80, 35⟩
    else if i = 133 then ⟨90, 10⟩
    else ⟨0, 0⟩)

unseal Rat.add Rat.sub Rat.mul Rat.inv in
/-- C9 counterexample: the upper-lid region is an open polyline (its first
and last points differ), yet the mask builder's pre-blur rasterization covers
the pixel (50,40), which lies farther than 20 pixels from every polyline
segment — the rasterization is the fill of the closed polygon, not a stroke
of the polyline (every stroke width the engine draws is at most 18). -/
theorem claim9_counterexample :
    (getRegionPath eyeLms9 "leftEyeUpper" 1).headD ⟨0, 0⟩ ≠
      (getRegionPath eyeLms9 "leftEyeUpper" 1).getLastD ⟨0, 0⟩ ∧
    generateRegionMask eyeLms9 "leftEyeUpper" 1 0 ⟨50, 40⟩ = 255 ∧
    onStroke (getRegionPath eyeLms9 "leftEyeUpper" 1) 40 ⟨50, 40⟩ = false ∧
    ((polylineSegs (getRegionPath eyeLms9 "leftEyeUpper" 1)).all
      (fun e => decide (400 < segDistSq ⟨50, 40⟩ e.1 e.2))) = true := by
  refine ⟨by decide, by decide, by decide, by decide⟩

/-- C9 (amended): for every region path with at least 3 surviving points —
open polylines included — the pre-blur rasterization of the mask builder is
the nonzero-winding fill of the CLOSED polygon through the points
(`createPath2D(points, true)` + `fill`); open line-based regions are not
stroked. -/
theorem claim9_mask_rasterizes_closed_fill (lms : List Pt) (name : String)
    (scale : ℚ) (p : Pt)
    (h3 : ¬ (getRegionPath lms name scale).length < 3) :
    generateRegionMask lms name scale 0 p =
      fillRaster (getRegionPath lms name scale) p := by
  unfold generateRegionMask
  rw [if_neg h3, if_neg (by norm_num)]

unseal Rat.add Rat.sub Rat.mul Rat.inv in
/-- Witness for C9 (amended): the open upper-lid path of the C9 fixture has
nine surviving points and its unfeathered mask equals the closed-polygon
fill. -/
theorem claim9_witness :
    ¬ (getRegionPath eyeLms9 "leftEyeUpper" 1).length < 3 ∧
    generateRegionMask eyeLms9 "leftEyeUpper" 1 0 ⟨50, 40⟩ =
      fillRaster (getRegionPath eyeLms9 "leftEyeUpper" 1) ⟨50, 40⟩ :=
  ⟨by decide,
   claim9_mask_rasterizes_closed_fill eyeLms9 "leftEyeUpper" 1 ⟨50, 40⟩ (by decide)⟩

end FaceMakeup

namespace FaceMakeup

/-- The radial-gradient radius used by `drawContourRegion` (and the circle
radius of `drawHighlight` before adding `featherRadius`):
`max(width, height) / 2` of the region's bounding box. -/
def contourRegionRadius (pts : List Pt) : ℚ :=
  max (qMax (pts.map (·.x)) - qMin (pts.map (·.x)))
      (qMax (pts.map (·.y)) - qMin (pts.map (·.y))) / 2

unseal Rat.add Rat.sub Rat.mul Rat.inv in
/-- C10 counterexample: the cheek-hollow contour module's `drawContourShadow`
fills its region with the SOLID contour color (alpha 1 everywhere inside,
softened only by blur) — at the bounding-box centre of a concrete triangle the
paint alpha is 1, not the 0 the claim requires of every contour region. -/
theorem claim10_counterexample :
    ([(⟨0, 0⟩ : Pt), ⟨100, 0⟩, ⟨50, 80⟩] : List Pt).length = 3 ∧
    contourShadowPaintAlpha [⟨0, 0⟩, ⟨100, 0⟩, ⟨50, 80⟩]
      (bboxCenter [⟨0, 0⟩, ⟨100, 0⟩, ⟨50, 80⟩]) = 1 ∧
    (1 : ℚ) ≠ 0 := by
  refine ⟨rfl, by decide, by norm_num⟩

/-- C10 (amended): the jawline/nose contour module's region fill is a radial
gradient fully transparent at the bounding-box centre and at full color at
the region's outer edge (distance `radius` from the centre), and highlight
regions are painted with the reverse gradient (full color at the centre,
transparent at the edge); the cheek-hollow contour module, however, fills its
regions with the uniform solid contour color (full alpha everywhere inside,
softened only by blur), not with a gradient. -/
theorem claim10_contour_highlight_gradients (pts : List Pt) (p : Pt)
    (h3 : 3 ≤ pts.length) :
    contourRegionPaintAlpha pts (bboxCenter pts) = 0 ∧
    (contourRegionRadius pts ≠ 0 →
      distSq p (bboxCenter pts) = contourRegionRadius pts ^ 2 →
      inPolygon pts p = true →
      contourRegionPaintAlpha pts p = 1) ∧
    highlightPaintAlpha 0 = 1 ∧
    highlightPaintAlpha 1 = 0 ∧
    (inPolygon pts p = true → contourShadowPaintAlpha pts p = 1) := by
  have hlen : ¬ pts.length < 3 := by omega
  refine ⟨?_, ?_, ?_, ?_, ?_⟩
  · unfold contourRegionPaintAlpha
    rw [if_neg hlen]
    by_cases hin : inPolygon pts (bboxCenter pts) = true
    · simp only [hin, if_true]
      split_ifs with hr
      · rfl
      · rw [show distSq (bboxCenter pts) (bboxCenter pts) = 0 by
          unfold distSq; ring, zero_div]
        norm_num [gradEvalSq, gradEval, contourGradientStops]
    · simp only [hin, if_false]
      rfl
  · intro hr hdist hin
    unfold contourRegionPaintAlpha
    rw [if_neg hlen]
    simp only [hin, if_true]
    unfold contourRegionRadius at hr hdist
    unfold bbox
    rw [if_neg (by exact_mod_cast hr), hdist]
    rw [div_self (by positivity)]
    norm_num [gradEvalSq, gradEval, contourGradientStops]
  · norm_num [highlightPaintAlpha, gradEvalSq, gradEval, highlightGradientStops]
  · norm_num [highlightPaintAlpha, gradEvalSq, gradEval, highlightGradientStops]
  · intro hin
    unfold contourShadowPaintAlpha
    rw [if_neg hlen, if_pos hin]

unseal Rat.add Rat.sub Rat.mul Rat.inv in
/-- Witness for C10 (amended): a concrete rectangle whose bounding-box radius
is 50, with an interior point exactly at gradient offset 1. -/
theorem claim10_witness :
    3 ≤ ([(⟨0, 0⟩ : Pt), ⟨100, 0⟩, ⟨100, 40⟩, ⟨0, 40⟩] : List Pt).length ∧
    contourRegionRadius [⟨0, 0⟩, ⟨100, 0⟩, ⟨100, 40⟩, ⟨0, 40⟩] ≠ 0 ∧
    distSq ⟨98, 34⟩ (bboxCenter [⟨0, 0⟩, ⟨100, 0⟩, ⟨100, 40⟩, ⟨0, 40⟩]) =
      contourRegionRadius [⟨0, 0⟩, ⟨100, 0⟩, ⟨100, 40⟩, ⟨0, 40⟩] ^ 2 ∧
    inPolygon [⟨0, 0⟩, ⟨100, 0⟩, ⟨100, 40⟩, ⟨0, 40⟩] ⟨98, 34⟩ = true ∧
    contourRegionPaintAlpha [⟨0, 0⟩, ⟨100, 0⟩, ⟨100, 40⟩, ⟨0, 40⟩]
      (bboxCenter [⟨0, 0⟩, ⟨100, 0⟩, ⟨100, 40⟩, ⟨0, 40⟩]) = 0 ∧
    contourRegionPaintAlpha [⟨0, 0⟩, ⟨100, 0⟩, ⟨100, 40⟩, ⟨0, 40⟩] ⟨98, 34⟩ = 1 :=
  ⟨by norm_num, by decide, by decide, by decide,
   (claim10_contour_highlight_gradients
      [⟨0, 0⟩, ⟨100, 0⟩, ⟨100, 40⟩, ⟨0, 40⟩] ⟨98, 34⟩ (by norm_num)).1,
   (claim10_contour_highlight_gradients
      [⟨0, 0⟩, ⟨100, 0⟩, ⟨100, 40⟩, ⟨0, 40⟩] ⟨98, 34⟩ (by norm_num)).2.1
      (by decide) (by decide) (by decide)⟩

end FaceMakeup

namespace FaceMakeup

/-! ## The hue ramp, segment by segment (for the C5 round-trip proof) -/

/-- `hue2rgb` on the first sixth of the ramp. -/
theorem hue2rgb_seg1 (p q t : ℚ) (h0 : 0 ≤ t) (h1 : t < 1/6) :
    hue2rgb p q t = p + (q - p) * 6 * t := by
  unfold hue2rgb
  dsimp only
  rw [if_neg (show ¬ t < 0 from not_lt.mpr h0),
    if_neg (show ¬ t > 1 from not_lt.mpr (by linarith)),
    if_pos (show t < 1/6 from h1)]

/-- `hue2rgb` on the plateau `[1/6, 1/2)`. -/
theorem hue2rgb_seg2 (p q t : ℚ) (h0 : 1/6 ≤ t) (h1 : t < 1/2) :
    hue2rgb p q t = q := by
  unfold hue2rgb
  dsimp only
  rw [if_neg (show ¬ t < 0 from not_lt.mpr (by linarith)),
    if_neg (show ¬ t > 1 from not_lt.mpr (by linarith)),
    if_neg (show ¬ t < 1/6 from not_lt.mpr h0),
    if_pos (show t < 1/2 from h1)]

/-- `hue2rgb` on the descending ramp `[1/2, 2/3)`. -/
theorem hue2rgb_seg3 (p q t : ℚ) (h0 : 1/2 ≤ t) (h1 : t < 2/3) :
    hue2rgb p q t = p + (q - p) * (2/3 - t) * 6 := by
  unfold hue2rgb
  dsimp only
  rw [if_neg (show ¬ t < 0 from not_lt.mpr (by linarith)),
    if_neg (show ¬ t > 1 from not_lt.mpr (by linarith)),
    if_neg (show ¬ t < 1/6 from not_lt.mpr (by linarith)),
    if_neg (show ¬ t < 1/2 from not_lt.mpr h0),
    if_pos (show t < 2/3 from h1)]

/-- `hue2rgb` on the tail `[2/3, 1]`. -/
theorem hue2rgb_seg4 (p q t : ℚ) (h0 : 2/3 ≤ t) (h1 : t ≤ 1) :
    hue2rgb p q t = p := by
  unfold hue2rgb
  dsimp only
  rw [if_neg (show ¬ t < 0 from not_lt.mpr (by linarith)),
    if_neg (show ¬ t > 1 from not_lt.mpr h1),
    if_neg (show ¬ t < 1/6 from not_lt.mpr (by linarith)),
    if_neg (show ¬ t < 1/2 from not_lt.mpr (by linarith)),
    if_neg (show ¬ t < 2/3 from not_lt.mpr h0)]

/-- `hue2rgb` wraps a negative argument up by one. -/
theorem hue2rgb_wrap_neg (p q t : ℚ) (h0 : t < 0) (h1 : -1 ≤ t) :
    hue2rgb p q t = hue2rgb p q (t + 1) := by
  unfold hue2rgb
  dsimp only
  rw [if_pos (show t < 0 from h0),
    if_neg (show ¬ t + 1 < 0 from not_lt.mpr (by linarith)),
    if_neg (show ¬ t + 1 > 1 from not_lt.mpr (by linarith))]

/-- `hue2rgb` wraps an argument above one down by one. -/
theorem hue2rgb_wrap_pos (p q t : ℚ) (h0 : 1 < t) (h1 : t ≤ 2) :
    hue2rgb p q t = hue2rgb p q (t - 1) := by
  unfold hue2rgb
  dsimp only
  rw [if_neg (show ¬ t < 0 from not_lt.mpr (by linarith)),
    if_pos (show t > 1 from h0),
    if_neg (show ¬ t - 1 < 0 from not_lt.mpr (by linarith)),
    if_neg (show ¬ t - 1 > 1 from not_lt.mpr (by linarith))]

/-! ## HSL bounds and extrema identification (for the C5 round-trip proof) -/

/-- The normalized minimum channel is nonnegative. -/
theorem rgbMin_nonneg (c : RGB) : 0 ≤ rgbMin c := by
  unfold rgbMin
  exact div_nonneg (le_min (le_min (by positivity) (by positivity)) (by positivity)) (by norm_num)

/-- On byte-valued channels the normalized maximum is at most one. -/
theorem rgbMax_le_one (c : RGB) (hr : c.r ≤ 255) (hg : c.g ≤ 255) (hb : c.b ≤ 255) :
    rgbMax c ≤ 1 := by
  unfold rgbMax
  rw [div_le_one (by norm_num)]
  have hr2 : (c.r : ℚ) ≤ 255 := by exact_mod_cast hr
  have hg2 : (c.g : ℚ) ≤ 255 := by exact_mod_cast hg
  have hb2 : (c.b : ℚ) ≤ 255 := by exact_mod_cast hb
  exact max_le (max_le hr2 hg2) hb2

/-- The normalized minimum is below the normalized maximum. -/
theorem rgbMin_le_rgbMax (c : RGB) : rgbMin c ≤ rgbMax c := by
  unfold rgbMin rgbMax
  refine (div_le_div_right (by norm_num)).mpr ?_
  exact le_trans (min_le_left _ _)
    (le_trans (min_le_left _ _) (le_trans (le_max_left _ _) (le_max_left _ _)))

/-- Each normalized channel lies between `rgbMin` and `rgbMax`. -/
theorem channel_bounds (c : RGB) :
    rgbMin c ≤ (c.r : ℚ) / 255 ∧ (c.r : ℚ) / 255 ≤ rgbMax c ∧
    rgbMin c ≤ (c.g : ℚ) / 255 ∧ (c.g : ℚ) / 255 ≤ rgbMax c ∧
    rgbMin c ≤ (c.b : ℚ) / 255 ∧ (c.b : ℚ) / 255 ≤ rgbMax c := by
  unfold rgbMax rgbMin
  have h255 : (0 : ℚ) < 255 := by norm_num
  refine ⟨(div_le_div_right h255).mpr ?_, (div_le_div_right h255).mpr ?_,
    (div_le_div_right h255).mpr ?_, (div_le_div_right h255).mpr ?_,
    (div_le_div_right h255).mpr ?_, (div_le_div_right h255).mpr ?_⟩
  · exact le_trans (min_le_left _ _) (min_le_left _ _)
  · exact le_trans (le_max_left _ _) (le_max_left _ _)
  · exact le_trans (min_le_left _ _) (min_le_right _ _)
  · exact le_trans (le_max_right _ _) (le_max_left _ _)
  · exact min_le_right _ _
  · exact le_max_right _ _

/-- The maximum channel is one of the three channels. -/
theorem rgbMax_cases (c : RGB) :
    rgbMax c = (c.r : ℚ) / 255 ∨ rgbMax c = (c.g : ℚ) / 255 ∨ rgbMax c = (c.b : ℚ) / 255 := by
  unfold rgbMax
  rcases max_choice (max (c.r : ℚ) (c.g : ℚ)) ((c.b : ℚ)) with h | h
  · rcases max_choice ((c.r : ℚ)) ((c.g : ℚ)) with h2 | h2
    · left; rw [h, h2]
    · right; left; rw [h, h2]
  · right; right; rw [h]

/-- `rgbMin` is the red channel when red is smallest. -/
theorem rgbMin_eq_r (c : RGB) (h1 : (c.r : ℚ) / 255 ≤ (c.g : ℚ) / 255)
    (h2 : (c.r : ℚ) / 255 ≤ (c.b : ℚ) / 255) : rgbMin c = (c.r : ℚ) / 255 := by
  have h255 : (0 : ℚ) < 255 := by norm_num
  unfold rgbMin
  rw [min_eq_left ((div_le_div_right h255).mp h1), min_eq_left ((div_le_div_right h255).mp h2)]

/-- `rgbMin` is the green channel when green is smallest. -/
theorem rgbMin_eq_g (c : RGB) (h1 : (c.g : ℚ) / 255 ≤ (c.r : ℚ) / 255)
    (h2 : (c.g : ℚ) / 255 ≤ (c.b : ℚ) / 255) : rgbMin c = (c.g : ℚ) / 255 := by
  have h255 : (0 : ℚ) < 255 := by norm_num
  unfold rgbMin
  rw [min_eq_right ((div_le_div_right h255).mp h1), min_eq_left ((div_le_div_right h255).mp h2)]

/-- `rgbMin` is the blue channel when blue is smallest. -/
theorem rgbMin_eq_b (c : RGB) (h1 : (c.b : ℚ) / 255 ≤ (c.r : ℚ) / 255)
    (h2 : (c.b : ℚ) / 255 ≤ (c.g : ℚ) / 255) : rgbMin c = (c.b : ℚ) / 255 := by
  have h255 : (0 : ℚ) < 255 := by norm_num
  unfold rgbMin
  rw [min_eq_right (le_min ((div_le_div_right h255).mp h1) ((div_le_div_right h255).mp h2))]

/-- On a grey color (max = min) all three channels coincide. -/
theorem channels_eq_of_grey (c : RGB) (h : rgbMax c = rgbMin c) :
    (c.r : ℚ) = (c.g : ℚ) ∧ (c.g : ℚ) = (c.b : ℚ) := by
  have hr1 : (c.r : ℚ) ≤ max (max (c.r : ℚ) (c.g : ℚ)) ((c.b : ℚ)) :=
    le_trans (le_max_left _ _) (le_max_left _ _)
  have hg1 : (c.g : ℚ) ≤ max (max (c.r : ℚ) (c.g : ℚ)) ((c.b : ℚ)) :=
    le_trans (le_max_right _ _) (le_max_left _ _)
  have hb1 : (c.b : ℚ) ≤ max (max (c.r : ℚ) (c.g : ℚ)) ((c.b : ℚ)) := le_max_right _ _
  have hr2 : min (min (c.r : ℚ) (c.g : ℚ)) ((c.b : ℚ)) ≤ (c.r : ℚ) :=
    le_trans (min_le_left _ _) (min_le_left _ _)
  have hg2 : min (min (c.r : ℚ) (c.g : ℚ)) ((c.b : ℚ)) ≤ (c.g : ℚ) :=
    le_trans (min_le_left _ _) (min_le_right _ _)
  have hb2 : min (min (c.r : ℚ) (c.g : ℚ)) ((c.b : ℚ)) ≤ (c.b : ℚ) := min_le_right _ _
  unfold rgbMax rgbMin at h
  rw [div_eq_div_iff (by norm_num) (by norm_num)] at h
  constructor <;> linarith

/-- The HSL saturation of a non-grey byte color is at most one. -/
theorem rgbSat_le_one (c : RGB) (h2 : rgbMax c ≤ 1) : rgbSat c ≤ 1 := by
  have hmn := rgbMin_nonneg c
  have hle := rgbMin_le_rgbMax c
  have hlight : rgbLight c = (rgbMax c + rgbMin c) / 2 := rfl
  unfold rgbSat
  by_cases h : rgbMax c = rgbMin c
  · rw [if_pos h]; norm_num
  · rw [if_neg h]
    have hlt : rgbMin c < rgbMax c := lt_of_le_of_ne hle (fun e => h e.symm)
    dsimp only
    by_cases hl : rgbLight c > 1/2
    · rw [if_pos hl]
      rw [hlight] at hl
      rw [div_le_one (by linarith)]
      linarith
    · rw [if_neg hl]
      rw [div_le_one (by linarith)]
      linarith

/-- The HSL saturation of a non-grey byte color is positive. -/
theorem rgbSat_pos (c : RGB) (h2 : rgbMax c ≤ 1) (hlt : rgbMin c < rgbMax c) :
    0 < rgbSat c := by
  have hmn := rgbMin_nonneg c
  have hlight : rgbLight c = (rgbMax c + rgbMin c) / 2 := rfl
  unfold rgbSat
  rw [if_neg (ne_of_gt hlt)]
  dsimp only
  by_cases hl : rgbLight c > 1/2
  · rw [if_pos hl]
    rw [hlight] at hl
    exact div_pos (by linarith) (by linarith)
  · rw [if_neg hl]
    exact div_pos (by linarith) (by linarith)

/-- The HSL `q` computed by `adjustColorIntensity` at unscaled saturation equals
the normalized maximum channel. -/
theorem hsl_q_eq (c : RGB) (h2 : rgbMax c ≤ 1) (hlt : rgbMin c < rgbMax c) :
    (if rgbLight c < 1/2 then rgbLight c * (1 + rgbSat c)
     else rgbLight c + rgbSat c - rgbLight c * rgbSat c) = rgbMax c := by
  have hmn := rgbMin_nonneg c
  unfold rgbSat rgbLight
  rw [if_neg (ne_of_gt hlt)]
  dsimp only
  by_cases hl1 : (rgbMax c + rgbMin c) / 2 > 1/2
  · rw [if_pos hl1, if_neg (not_lt.mpr (le_of_lt hl1))]
    have hden : (2 : ℚ) - rgbMax c - rgbMin c > 0 := by linarith
    have hdne : (2 : ℚ) - rgbMax c - rgbMin c ≠ 0 := ne_of_gt hden
    field_simp
    ring
  · rw [if_neg hl1]
    have hden : rgbMax c + rgbMin c > 0 := by linarith
    have hdne : rgbMax c + rgbMin c ≠ 0 := ne_of_gt hden
    by_cases hl2 : (rgbMax c + rgbMin c) / 2 < 1/2
    · rw [if_pos hl2]
      field_simp
      ring
    · rw [if_neg hl2]
      have heq : rgbMax c + rgbMin c = 1 := by
        have := not_lt.mp hl1
        have := not_lt.mp hl2
        linarith
      rw [heq, div_one]
      linarith

/-! ## The six hue branches of the HSL round trip -/

/-- Hue branch: red is the maximum, blue the minimum. -/
theorem hue_caseA1 (rN gN bN : ℚ) (h1 : bN ≤ gN) (h2 : gN ≤ rN) (h3 : bN < rN) :
    hue2rgb bN rN (((gN - bN) / (rN - bN) + 0) / 6 + 1/3) = rN ∧
    hue2rgb bN rN (((gN - bN) / (rN - bN) + 0) / 6) = gN ∧
    hue2rgb bN rN (((gN - bN) / (rN - bN) + 0) / 6 - 1/3) = bN := by
  have hdpos : (0 : ℚ) < rN - bN := by linarith
  have hdne : rN - bN ≠ 0 := ne_of_gt hdpos
  set x := (gN - bN) / (rN - bN) with hx
  have hx0 : 0 ≤ x := div_nonneg (by linarith) (le_of_lt hdpos)
  have hx1 : x ≤ 1 := (div_le_one hdpos).mpr (by linarith)
  have hxval : x * (rN - bN) = gN - bN := by rw [hx]; exact div_mul_cancel₀ _ hdne
  refine ⟨?_, ?_, ?_⟩
  · rcases eq_or_lt_of_le hx1 with he | hl
    · rw [he, hue2rgb_seg3 bN rN _ (by norm_num) (by norm_num)]
      ring
    · exact hue2rgb_seg2 bN rN _ (by linarith) (by linarith)
  · rcases eq_or_lt_of_le hx1 with he | hl
    · rw [he, hue2rgb_seg2 bN rN _ (by norm_num) (by norm_num)]
      rw [he] at hxval
      linarith
    · rw [hue2rgb_seg1 bN rN _ (by linarith) (by linarith)]
      have e : bN + (rN - bN) * 6 * ((x + 0) / 6) = bN + x * (rN - bN) := by ring
      rw [e, hxval]; ring
  · rw [hue2rgb_wrap_neg bN rN _ (by linarith) (by linarith)]
    exact hue2rgb_seg4 bN rN _ (by linarith) (by linarith)

/-- Hue branch: red is the maximum, green the minimum. -/
theorem hue_caseA2 (rN gN bN : ℚ) (h1 : gN < bN) (h2 : bN ≤ rN) (h3 : gN < rN) :
    hue2rgb gN rN (((gN - bN) / (rN - gN) + 6) / 6 + 1/3) = rN ∧
    hue2rgb gN rN (((gN - bN) / (rN - gN) + 6) / 6) = gN ∧
    hue2rgb gN rN (((gN - bN) / (rN - gN) + 6) / 6 - 1/3) = bN := by
  have hdpos : (0 : ℚ) < rN - gN := by linarith
  have hdne : rN - gN ≠ 0 := ne_of_gt hdpos
  set x := (gN - bN) / (rN - gN) with hx
  have hx0 : x < 0 := div_neg_of_neg_of_pos (by linarith) hdpos
  have hx1 : -1 ≤ x := by
    rw [hx, le_div_iff hdpos]
    linarith
  have hxval : x * (rN - gN) = gN - bN := by rw [hx]; exact div_mul_cancel₀ _ hdne
  refine ⟨?_, ?_, ?_⟩
  · rw [hue2rgb_wrap_pos gN rN _ (by linarith) (by linarith)]
    exact hue2rgb_seg2 gN rN _ (by linarith) (by linarith)
  · exact hue2rgb_seg4 gN rN _ (by linarith) (by linarith)
  · rw [hue2rgb_seg3 gN rN _ (by linarith) (by linarith)]
    have e : gN + (rN - gN) * (2/3 - ((x + 6) / 6 - 1/3)) * 6 = gN - x * (rN - gN) := by ring
    rw [e, hxval]; ring

/-- Hue branch: green is the maximum, red the minimum. -/
theorem hue_caseB1 (rN gN bN : ℚ) (h1 : rN ≤ bN) (h2 : bN ≤ gN) (h3 : rN < gN) :
    hue2rgb rN gN (((bN - rN) / (gN - rN) + 2) / 6 + 1/3) = rN ∧
    hue2rgb rN gN (((bN - rN) / (gN - rN) + 2) / 6) = gN ∧
    hue2rgb rN gN (((bN - rN) / (gN - rN) + 2) / 6 - 1/3) = bN := by
  have hdpos : (0 : ℚ) < gN - rN := by linarith
  have hdne : gN - rN ≠ 0 := ne_of_gt hdpos
  set y := (bN - rN) / (gN - rN) with hy
  have hy0 : 0 ≤ y := div_nonneg (by linarith) (le_of_lt hdpos)
  have hy1 : y ≤ 1 := (div_le_one hdpos).mpr (by linarith)
  have hyval : y * (gN - rN) = bN - rN := by rw [hy]; exact div_mul_cancel₀ _ hdne
  refine ⟨?_, ?_, ?_⟩
  · exact hue2rgb_seg4 rN gN _ (by linarith) (by linarith)
  · rcases eq_or_lt_of_le hy1 with he | hl
    · rw [he, hue2rgb_seg3 rN gN _ (by norm_num) (by norm_num)]
      ring
    · exact hue2rgb_seg2 rN gN _ (by linarith) (by linarith)
  · rcases eq_or_lt_of_le hy1 with he | hl
    · rw [he, hue2rgb_seg2 rN gN _ (by norm_num) (by norm_num)]
      rw [he] at hyval
      linarith
    · rw [hue2rgb_seg1 rN gN _ (by linarith) (by linarith)]
      have e : rN + (gN - rN) * 6 * ((y + 2) / 6 - 1/3) = rN + y * (gN - rN) := by ring
      rw [e, hyval]; ring

/-- Hue branch: green is the maximum, blue the minimum. -/
theorem hue_caseB2 (rN gN bN : ℚ) (h1 : bN < rN) (h2 : rN < gN) :
    hue2rgb bN gN (((bN - rN) / (gN - bN) + 2) / 6 + 1/3) = rN ∧
    hue2rgb bN gN (((bN - rN) / (gN - bN) + 2) / 6) = gN ∧
    hue2rgb bN gN (((bN - rN) / (gN - bN) + 2) / 6 - 1/3) = bN := by
  have hdpos : (0 : ℚ) < gN - bN := by linarith
  have hdne : gN - bN ≠ 0 := ne_of_gt hdpos
  set y := (bN - rN) / (gN - bN) with hy
  have hy0 : y < 0 := div_neg_of_neg_of_pos (by linarith) hdpos
  have hy1 : -1 < y := by
    rw [hy, lt_div_iff hdpos]
    linarith
  have hyval : y * (gN - bN) = bN - rN := by rw [hy]; exact div_mul_cancel₀ _ hdne
  refine ⟨?_, ?_, ?_⟩
  · rw [hue2rgb_seg3 bN gN _ (by linarith) (by linarith)]
    have e : bN + (gN - bN) * (2/3 - ((y + 2) / 6 + 1/3)) * 6 = bN - y * (gN - bN) := by ring
    rw [e, hyval]; ring
  · exact hue2rgb_seg2 bN gN _ (by linarith) (by linarith)
  · rw [hue2rgb_wrap_neg bN gN _ (by linarith) (by linarith)]
    exact hue2rgb_seg4 bN gN _ (by linarith) (by linarith)

/-- Hue branch: blue is the maximum, green the minimum. -/
theorem hue_caseC1 (rN gN bN : ℚ) (h1 : gN ≤ rN) (h2 : rN < bN) :
    hue2rgb gN bN (((rN - gN) / (bN - gN) + 4) / 6 + 1/3) = rN ∧
    hue2rgb gN bN (((rN - gN) / (bN - gN) + 4) / 6) = gN ∧
    hue2rgb gN bN (((rN - gN) / (bN - gN) + 4) / 6 - 1/3) = bN := by
  have hdpos : (0 : ℚ) < bN - gN := by linarith
  have hdne : bN - gN ≠ 0 := ne_of_gt hdpos
  set z := (rN - gN) / (bN - gN) with hz
  have hz0 : 0 ≤ z := div_nonneg (by linarith) (le_of_lt hdpos)
  have hz1 : z < 1 := (div_lt_one hdpos).mpr (by linarith)
  have hzval : z * (bN - gN) = rN - gN := by rw [hz]; exact div_mul_cancel₀ _ hdne
  refine ⟨?_, ?_, ?_⟩
  · rcases eq_or_lt_of_le hz0 with he | hl
    · rw [← he, hue2rgb_seg4 gN bN _ (by norm_num) (by norm_num)]
      rw [← he] at hzval
      linarith
    · rw [hue2rgb_wrap_pos gN bN _ (by linarith) (by linarith)]
      rw [hue2rgb_seg1 gN bN _ (by linarith) (by linarith)]
      have e : gN + (bN - gN) * 6 * ((z + 4) / 6 + 1/3 - 1) = gN + z * (bN - gN) := by ring
      rw [e, hzval]; ring
  · exact hue2rgb_seg4 gN bN _ (by linarith) (by linarith)
  · exact hue2rgb_seg2 gN bN _ (by linarith) (by linarith)

/-- Hue branch: blue is the maximum, red the minimum. -/
theorem hue_caseC2 (rN gN bN : ℚ) (h1 : rN < gN) (h2 : gN < bN) :
    hue2rgb rN bN (((rN - gN) / (bN - rN) + 4) / 6 + 1/3) = rN ∧
    hue2rgb rN bN (((rN - gN) / (bN - rN) + 4) / 6) = gN ∧
    hue2rgb rN bN (((rN - gN) / (bN - rN) + 4) / 6 - 1/3) = bN := by
  have hdpos : (0 : ℚ) < bN - rN := by linarith
  have hdne : bN - rN ≠ 0 := ne_of_gt hdpos
  set z := (rN - gN) / (bN - rN) with hz
  have hz0 : z < 0 := div_neg_of_neg_of_pos (by linarith) hdpos
  have hz1 : -1 < z := by
    rw [hz, lt_div_iff hdpos]
    linarith
  have hzval : z * (bN - rN) = rN - gN := by rw [hz]; exact div_mul_cancel₀ _ hdne
  refine ⟨?_, ?_, ?_⟩
  · exact hue2rgb_seg4 rN bN _ (by linarith) (by linarith)
  · rw [hue2rgb_seg3 rN bN _ (by linarith) (by linarith)]
    have e : rN + (bN - rN) * (2/3 - ((z + 4) / 6)) * 6 = rN - z * (bN - rN) := by ring
    rw [e, hzval]; ring
  · exact hue2rgb_seg2 rN bN _ (by linarith) (by linarith)

/-- Evaluating the hue ramp at the three phase offsets recovers the three
normalized channels of a non-grey color. -/
theorem hue_roundtrip (c : RGB) (h2 : rgbMax c ≤ 1) (hlt : rgbMin c < rgbMax c) :
    hue2rgb (rgbMin c) (rgbMax c) (rgbHue c + 1/3) = (c.r : ℚ) / 255 ∧
    hue2rgb (rgbMin c) (rgbMax c) (rgbHue c) = (c.g : ℚ) / 255 ∧
    hue2rgb (rgbMin c) (rgbMax c) (rgbHue c - 1/3) = (c.b : ℚ) / 255 := by
  obtain ⟨hr1, hr2, hg1, hg2, hb1, hb2⟩ := channel_bounds c
  unfold rgbHue
  rw [if_neg (ne_of_gt hlt)]
  dsimp only
  by_cases hA : rgbMax c = (c.r : ℚ) / 255
  · rw [if_pos hA]
    by_cases hgb : (c.g : ℚ) / 255 < (c.b : ℚ) / 255
    · rw [if_pos hgb]
      have hmn : rgbMin c = (c.g : ℚ) / 255 :=
        rgbMin_eq_g c (le_trans hg2 (le_of_eq hA)) (le_of_lt hgb)
      rw [hA, hmn]
      exact hue_caseA2 _ _ _ hgb (le_trans hb2 (le_of_eq hA))
        (lt_of_lt_of_le hgb (le_trans hb2 (le_of_eq hA)))
    · rw [if_neg hgb]
      have hbg : (c.b : ℚ) / 255 ≤ (c.g : ℚ) / 255 := not_lt.mp hgb
      have hmn : rgbMin c = (c.b : ℚ) / 255 :=
        rgbMin_eq_b c (le_trans hb2 (le_of_eq hA)) hbg
      have hbr : (c.b : ℚ) / 255 < (c.r : ℚ) / 255 := by
        rw [← hA, ← hmn]; exact hlt
      rw [hA, hmn]
      exact hue_caseA1 _ _ _ hbg (le_trans hg2 (le_of_eq hA)) hbr
  · rw [if_neg hA]
    by_cases hB : rgbMax c = (c.g : ℚ) / 255
    · rw [if_pos hB]
      have hrg : (c.r : ℚ) / 255 < (c.g : ℚ) / 255 := by
        rw [← hB]; exact lt_of_le_of_ne hr2 (fun e => hA e.symm)
      by_cases hrb : (c.r : ℚ) / 255 ≤ (c.b : ℚ) / 255
      · have hmn : rgbMin c = (c.r : ℚ) / 255 := rgbMin_eq_r c (le_of_lt hrg) hrb
        rw [hB, hmn]
        exact hue_caseB1 _ _ _ hrb (le_trans hb2 (le_of_eq hB)) hrg
      · have hbr : (c.b : ℚ) / 255 < (c.r : ℚ) / 255 := not_le.mp hrb
        have hmn : rgbMin c = (c.b : ℚ) / 255 :=
          rgbMin_eq_b c (le_of_lt hbr) (le_of_lt (lt_trans hbr hrg))
        rw [hB, hmn]
        exact hue_caseB2 _ _ _ hbr hrg
    · rw [if_neg hB]
      have hC : rgbMax c = (c.b : ℚ) / 255 := by
        rcases rgbMax_cases c with h | h | h
        · exact absurd h hA
        · exact absurd h hB
        · exact h
      have hrb : (c.r : ℚ) / 255 < (c.b : ℚ) / 255 := by
        rw [← hC]; exact lt_of_le_of_ne hr2 (fun e => hA e.symm)
      have hgb : (c.g : ℚ) / 255 < (c.b : ℚ) / 255 := by
        rw [← hC]; exact lt_of_le_of_ne hg2 (fun e => hB e.symm)
      by_cases hgr : (c.g : ℚ) / 255 ≤ (c.r : ℚ) / 255
      · have hmn : rgbMin c = (c.g : ℚ) / 255 := rgbMin_eq_g c hgr (le_of_lt hgb)
        rw [hC, hmn]
        exact hue_caseC1 _ _ _ hgr hrb
      · have hrg : (c.r : ℚ) / 255 < (c.g : ℚ) / 255 := not_le.mp hgr
        have hmn : rgbMin c = (c.r : ℚ) / 255 := rgbMin_eq_r c (le_of_lt hrg) (le_of_lt hrb)
        rw [hC, hmn]
        exact hue_caseC2 _ _ _ hrg hgb

/-- On byte-valued channels the hex→HSL→hex conversion of `adjustColorIntensity`
at intensity one is exactly the identity. -/
theorem adjustColorIntensity_one (c : RGB)
    (hr : c.r ≤ 255) (hg : c.g ≤ 255) (hb : c.b ≤ 255) :
    adjustColorIntensity c 1 = c := by
  by_cases hgrey : rgbMax c = rgbMin c
  · obtain ⟨e1, e2⟩ := channels_eq_of_grey c hgrey
    have hs : rgbSat c = 0 := by unfold rgbSat; rw [if_pos hgrey]
    have hmx : rgbMax c = (c.r : ℚ) / 255 := by
      unfold rgbMax; rw [← e2, ← e1, max_self, max_self]
    have hmn : rgbMin c = (c.r : ℚ) / 255 := by
      unfold rgbMin; rw [← e2, ← e1, min_self, min_self]
    have hl255 : rgbLight c * 255 = (c.r : ℚ) := by
      unfold rgbLight; rw [hmx, hmn]; ring
    unfold adjustColorIntensity
    dsimp only
    rw [hs, show min (1 : ℚ) (0 * 1) = 0 from by norm_num, if_pos rfl]
    rw [hl255, jround_byte, Int.toNat_natCast]
    have hrg : c.r = c.g := Nat.cast_inj.mp e1
    have hrb : c.r = c.b := Nat.cast_inj.mp (e1.trans e2)
    rw [show (⟨c.r, c.r, c.r⟩ : RGB) = ⟨c.r, c.g, c.b⟩ from by rw [← hrg, ← hrb]]
  · have hlt : rgbMin c < rgbMax c :=
      lt_of_le_of_ne (rgbMin_le_rgbMax c) (fun e => hgrey e.symm)
    have h2 : rgbMax c ≤ 1 := rgbMax_le_one c hr hg hb
    have hspos : 0 < rgbSat c := rgbSat_pos c h2 hlt
    have hsle : rgbSat c ≤ 1 := rgbSat_le_one c h2
    unfold adjustColorIntensity
    dsimp only
    rw [mul_one, min_eq_right hsle, if_neg (ne_of_gt hspos)]
    rw [hsl_q_eq c h2 hlt,
      show 2 * rgbLight c - rgbMax c = rgbMin c from by unfold rgbLight; ring]
    obtain ⟨hR, hG, hB⟩ := hue_roundtrip c h2 hlt
    rw [hR, hG, hB]
    have h255 : ((255 : ℚ)) ≠ 0 := by norm_num
    rw [div_mul_cancel₀ _ h255, div_mul_cancel₀ _ h255, div_mul_cancel₀ _ h255,
      jround_byte, jround_byte, jround_byte,
      Int.toNat_natCast, Int.toNat_natCast, Int.toNat_natCast]

/-- C5: `adjustColorIntensity` applied with intensity 1 to a fully saturated
byte color (HSL saturation exactly 1) returns the original color: the
hex→HSL→hex round trip with saturation scaled by 1 is the identity on exact
rationals, so after `Math.round` each output channel equals the input channel
(in particular it is within 1 unit of it). -/
theorem claim5_saturated_roundtrip (c : RGB)
    (hr : c.r ≤ 255) (hg : c.g ≤ 255) (hb : c.b ≤ 255)
    (hsat : rgbSat c = 1) :
    adjustColorIntensity c 1 = c :=
  adjustColorIntensity_one c hr hg hb

unseal Rat.add Rat.sub Rat.mul Rat.inv in
theorem claim5_witness :
    rgbSat ⟨255, 0, 0⟩ = 1 ∧ adjustColorIntensity ⟨255, 0, 0⟩ 1 = ⟨255, 0, 0⟩ :=
  ⟨by decide,
   claim5_saturated_roundtrip ⟨255, 0, 0⟩ (by decide) (by decide) (by decide) (by decide)⟩

end FaceMakeup
